import Mathlib

/-!
# Debug-event callbacks of the CDB debugger plugin

A shallow embedding of `src/plugins/debugger/cdb/cdbdebugeventcallback.cpp`:
the exception classifier `isFatalException`, the two `formatException`
overloads, the event-callback classes and the scoped `EventCallbackRedirector`,
followed by theorems about them.

Conventions of the embedding.
* `DWORD`, `ULONG` and `ULONG64` values are natural numbers; `LONG` values are
  integers obtained through the two's-complement reading `toLONG`.
* A `QTextStream` writing into a `QString` is a record of the text written so
  far and the current integer base.
* Calls into the engine, the manager access object and the dumper are recorded,
  in program order, in a list of `Call`s.
* `qDebug()` diagnostics guarded by `debugCDB` are not part of the model.
-/

namespace Debugger
namespace Internal

/-! ## Platform constants -/

/-- Value of the Windows SDK constant of the same name (`winnt.h`). -/
def EXCEPTION_ACCESS_VIOLATION : Nat := 0xC0000005
/-- Value of the Windows SDK constant of the same name (`winnt.h`). -/
def EXCEPTION_DATATYPE_MISALIGNMENT : Nat := 0x80000002
/-- Value of the Windows SDK constant of the same name (`winnt.h`). -/
def EXCEPTION_BREAKPOINT : Nat := 0x80000003
/-- Value of the Windows SDK constant of the same name (`winnt.h`). -/
def EXCEPTION_SINGLE_STEP : Nat := 0x80000004
/-- Value of the Windows SDK constant of the same name (`winnt.h`). -/
def EXCEPTION_ARRAY_BOUNDS_EXCEEDED : Nat := 0xC000008C
/-- Value of the Windows SDK constant of the same name (`winnt.h`). -/
def EXCEPTION_FLT_DENORMAL_OPERAND : Nat := 0xC000008D
/-- Value of the Windows SDK constant of the same name (`winnt.h`). -/
def EXCEPTION_FLT_DIVIDE_BY_ZERO : Nat := 0xC000008E
/-- Value of the Windows SDK constant of the same name (`winnt.h`). -/
def EXCEPTION_FLT_INEXACT_RESULT : Nat := 0xC000008F
/-- Value of the Windows SDK constant of the same name (`winnt.h`). -/
def EXCEPTION_FLT_INVALID_OPERATION : Nat := 0xC0000090
/-- Value of the Windows SDK constant of the same name (`winnt.h`). -/
def EXCEPTION_FLT_OVERFLOW : Nat := 0xC0000091
/-- Value of the Windows SDK constant of the same name (`winnt.h`). -/
def EXCEPTION_FLT_STACK_CHECK : Nat := 0xC0000092
/-- Value of the Windows SDK constant of the same name (`winnt.h`). -/
def EXCEPTION_FLT_UNDERFLOW : Nat := 0xC0000093
/-- Value of the Windows SDK constant of the same name (`winnt.h`). -/
def EXCEPTION_ILLEGAL_INSTRUCTION : Nat := 0xC000001D
/-- Value of the Windows SDK constant of the same name (`winnt.h`). -/
def EXCEPTION_IN_PAGE_ERROR : Nat := 0xC0000006
/-- Value of the Windows SDK constant of the same name (`winnt.h`). -/
def EXCEPTION_INT_DIVIDE_BY_ZERO : Nat := 0xC0000094
/-- Value of the Windows SDK constant of the same name (`winnt.h`). -/
def EXCEPTION_INT_OVERFLOW : Nat := 0xC0000095
/-- Value of the Windows SDK constant of the same name (`winnt.h`). -/
def EXCEPTION_INVALID_DISPOSITION : Nat := 0xC0000026
/-- Value of the Windows SDK constant of the same name (`winnt.h`). -/
def EXCEPTION_NONCONTINUABLE_EXCEPTION : Nat := 0xC0000025
/-- Value of the Windows SDK constant of the same name (`winnt.h`). -/
def EXCEPTION_PRIV_INSTRUCTION : Nat := 0xC0000096
/-- Value of the Windows SDK constant of the same name (`winnt.h`). -/
def EXCEPTION_STACK_OVERFLOW : Nat := 0xC00000FD
/-- Value of the Windows SDK flag bit of the same name (`winnt.h`). -/
def EXCEPTION_NONCONTINUABLE : Nat := 0x1

/-- First enumerator of the anonymous enum at the top of the file. -/
def cppExceptionCode : Nat := 0xe06d7363
/-- Second enumerator of the anonymous enum at the top of the file. -/
def startupCompleteTrap : Nat := 0x406d1388
/-- Third enumerator of the anonymous enum at the top of the file. -/
def rpcServerUnavailableExceptionCode : Nat := 0x6ba

/-- Result code `S_OK` of a COM method. -/
def S_OK : Int := 0

/-- Conversion of a 32-bit unsigned value to `LONG` (two's complement). -/
def toLONG (c : Nat) : Int :=
  if c % 2 ^ 32 < 2 ^ 31 then (c % 2 ^ 32 : Nat) else ((c % 2 ^ 32 : Nat) : Int) - 2 ^ 32

/-! ## Exception classification -/

/-- The `switch` of `isFatalException(LONG code)`: the four listed cases return
`false`, the default falls through to `return true`. -/
def isFatalException (code : Int) : Bool :=
  if code = toLONG EXCEPTION_BREAKPOINT then false
  else if code = toLONG EXCEPTION_SINGLE_STEP then false
  else if code = toLONG startupCompleteTrap then false
  else if code = toLONG rpcServerUnavailableExceptionCode then false
  else true

/-! ## Text streams and exception records -/

/-- A `QTextStream` opened on a `QString`: the text written so far and the
integer base (`0` is Qt's default, which writes numbers in base ten). Numbers
are written without base marker, padding or upper-case digits, as a stream with
default number flags does. -/
structure QTextStream where
  string : String
  integerBase : Nat

namespace QTextStream

/-- Model of `QTextStream::setIntegerBase`. -/
def setIntegerBase (str : QTextStream) (base : Nat) : QTextStream :=
  { str with integerBase := base }

/-- Model of `operator<<` on a string or character literal. -/
def writeString (str : QTextStream) (s : String) : QTextStream :=
  { str with string := str.string ++ s }

/-- Model of `operator<<` on an unsigned integer. -/
def writeNumber (str : QTextStream) (n : Nat) : QTextStream :=
  { str with
    string := str.string ++
      String.mk (Nat.toDigits (if str.integerBase = 0 then 10 else str.integerBase) n) }

end QTextStream

/-- The Windows structure `EXCEPTION_RECORD64`: two `DWORD`s, two `DWORD64`s,
the parameter count and fifteen `DWORD64` parameters. -/
structure EXCEPTION_RECORD64 where
  ExceptionCode : Nat
  ExceptionFlags : Nat
  ExceptionRecord : Nat
  ExceptionAddress : Nat
  NumberParameters : Nat
  ExceptionInformation : Fin 15 → Nat

/-- The `switch (e->ExceptionCode)` of `formatException`; a code without a
`case` writes nothing. -/
def formatExceptionSwitch (e : EXCEPTION_RECORD64) (str : QTextStream) : QTextStream :=
  if e.ExceptionCode = cppExceptionCode then str.writeString "C++ exception"
  else if e.ExceptionCode = startupCompleteTrap then str.writeString "Startup complete"
  else if e.ExceptionCode = EXCEPTION_ACCESS_VIOLATION then
    let writeOperation : Bool := e.ExceptionInformation 0 != 0
    ((str.writeString (if writeOperation then "write" else "read")).writeString
      " access violation at: 0x").writeNumber (e.ExceptionInformation 1)
  else if e.ExceptionCode = EXCEPTION_ARRAY_BOUNDS_EXCEEDED then
    str.writeString "arrary bounds exceeded"
  else if e.ExceptionCode = EXCEPTION_BREAKPOINT then str.writeString "breakpoint"
  else if e.ExceptionCode = EXCEPTION_DATATYPE_MISALIGNMENT then
    str.writeString "datatype misalignment"
  else if e.ExceptionCode = EXCEPTION_FLT_DENORMAL_OPERAND then
    str.writeString "floating point exception"
  else if e.ExceptionCode = EXCEPTION_FLT_DIVIDE_BY_ZERO then
    str.writeString "division by zero"
  else if e.ExceptionCode = EXCEPTION_FLT_INEXACT_RESULT then
    str.writeString
      " floating-point operation cannot be represented exactly as a decimal fraction"
  else if e.ExceptionCode = EXCEPTION_FLT_INVALID_OPERATION then
    str.writeString "invalid floating-point operation"
  else if e.ExceptionCode = EXCEPTION_FLT_OVERFLOW then
    str.writeString "floating-point overflow"
  else if e.ExceptionCode = EXCEPTION_FLT_STACK_CHECK then
    str.writeString "floating-point operation stack over/underflow"
  else if e.ExceptionCode = EXCEPTION_FLT_UNDERFLOW then
    str.writeString "floating-point UNDERFLOW"
  else if e.ExceptionCode = EXCEPTION_ILLEGAL_INSTRUCTION then
    str.writeString "invalid instruction"
  else if e.ExceptionCode = EXCEPTION_IN_PAGE_ERROR then str.writeString "page in error"
  else if e.ExceptionCode = EXCEPTION_INT_DIVIDE_BY_ZERO then
    str.writeString "integer division by zero"
  else if e.ExceptionCode = EXCEPTION_INT_OVERFLOW then str.writeString "integer overflow"
  else if e.ExceptionCode = EXCEPTION_INVALID_DISPOSITION then
    str.writeString "invalid disposition to exception dispatcher"
  else if e.ExceptionCode = EXCEPTION_NONCONTINUABLE_EXCEPTION then
    str.writeString "attempt to continue execution after noncontinuable exception"
  else if e.ExceptionCode = EXCEPTION_PRIV_INSTRUCTION then
    str.writeString "privileged instruction"
  else if e.ExceptionCode = EXCEPTION_SINGLE_STEP then str.writeString "single step"
  else if e.ExceptionCode = EXCEPTION_STACK_OVERFLOW then str.writeString "stack_overflow"
  else str

/-- Simple exception formatting: `formatException(const EXCEPTION_RECORD64 *e,
QTextStream &str)`. -/
def formatException (e : EXCEPTION_RECORD64) (str : QTextStream) : QTextStream :=
  let str := str.setIntegerBase 16
  let str := ((((str.writeString "\nException at 0x").writeNumber e.ExceptionAddress).writeString
    ", code: 0x").writeNumber e.ExceptionCode).writeString ": "
  let str := formatExceptionSwitch e str
  let str := (str.writeString ", flags=0x").writeNumber e.ExceptionFlags
  let str :=
    if e.ExceptionFlags = EXCEPTION_NONCONTINUABLE then
      str.writeString " (execution cannot be continued)"
    else str
  let str := str.writeString "\n\n"
  str.setIntegerBase 10

/-! ## Engine, sinks and the stack-trace provider -/

/-- One call made by a handler into its collaborators, with its arguments. -/
inductive Call where
  | handleBreakpointEvent (Bp : Nat)
  | showApplicationOutput (msg : String)
  | notifyCrashed
  | updateThreadList
  | processCreatedAttached (processHandle initialThreadHandle : Nat)
  | processTerminated (exitCode : Nat)
  | handleModuleLoad (name : String)
  | updateModules
  | showDebuggerOutput (logPrefix msg : String)
  | GetCurrentThreadId
  | createStackTraceContext (threadId : Nat)
  deriving DecidableEq, Repr

/-- Modelled from the spec: the stack-trace provider behind `CdbDumperHelper`,
whose `debugSystemObjects->GetCurrentThreadId` and
`CdbStackTraceContext::create` / `format` are not among the sources. Section 6
gives it as `currentThreadId() -> id` and
`captureTrace(threadId) -> FormattedTrace | failure`. `GetCurrentThreadId` is
the id the session writes to its out-parameter (`none` when the call fails and
writes nothing); `create` is the text `format` writes for a created context
(`none` when `create` returns null). -/
structure CdbDumperHelper where
  GetCurrentThreadId : Option Nat
  create : Nat → Option String

/-- Format exception with stacktrace in case of C++ exception:
`formatException(e, dumper, str)`. Returns the stream and the calls made to
the dumper. -/
def formatExceptionWithDumper (e : EXCEPTION_RECORD64) (dumper : CdbDumperHelper)
    (str : QTextStream) : QTextStream × List Call :=
  let str := formatException e str
  if e.ExceptionCode = cppExceptionCode then
    let currentThreadId : Nat := dumper.GetCurrentThreadId.getD 0
    match dumper.create currentThreadId with
    | some trace =>
      (((str.writeString "at:\n").writeString trace).writeString "\n",
        [Call.GetCurrentThreadId, Call.createStackTraceContext currentThreadId])
    | none => (str, [Call.GetCurrentThreadId, Call.createStackTraceContext currentThreadId])
  else (str, [])

/-- The part of `CdbDebugEnginePrivate` the callbacks read. -/
structure CdbDebugEnginePrivate where
  m_dumper : CdbDumperHelper

/-- The part of `CdbDebugEngine` the callbacks read. -/
structure CdbDebugEngine where
  m_d : CdbDebugEnginePrivate

/-! ## Debug events and interest masks -/

/-- Value of the `dbgeng.h` event bit of the same name. -/
def DEBUG_EVENT_BREAKPOINT : Nat := 0x1
/-- Value of the `dbgeng.h` event bit of the same name. -/
def DEBUG_EVENT_EXCEPTION : Nat := 0x2
/-- Value of the `dbgeng.h` event bit of the same name. -/
def DEBUG_EVENT_CREATE_THREAD : Nat := 0x4
/-- Value of the `dbgeng.h` event bit of the same name. -/
def DEBUG_EVENT_EXIT_THREAD : Nat := 0x8
/-- Value of the `dbgeng.h` event bit of the same name. -/
def DEBUG_EVENT_CREATE_PROCESS : Nat := 0x10
/-- Value of the `dbgeng.h` event bit of the same name. -/
def DEBUG_EVENT_EXIT_PROCESS : Nat := 0x20
/-- Value of the `dbgeng.h` event bit of the same name. -/
def DEBUG_EVENT_LOAD_MODULE : Nat := 0x40
/-- Value of the `dbgeng.h` event bit of the same name. -/
def DEBUG_EVENT_UNLOAD_MODULE : Nat := 0x80
/-- Value of the `dbgeng.h` event bit of the same name. -/
def DEBUG_EVENT_SYSTEM_ERROR : Nat := 0x100
/-- Value of the `dbgeng.h` event bit of the same name. -/
def DEBUG_EVENT_SESSION_STATUS : Nat := 0x200
/-- Value of the `dbgeng.h` event bit of the same name. -/
def DEBUG_EVENT_CHANGE_DEBUGGEE_STATE : Nat := 0x400
/-- Value of the `dbgeng.h` event bit of the same name. -/
def DEBUG_EVENT_CHANGE_ENGINE_STATE : Nat := 0x800
/-- Value of the `dbgeng.h` event bit of the same name. -/
def DEBUG_EVENT_CHANGE_SYMBOL_STATE : Nat := 0x1000

/-- One notification of the debugging subsystem: a method of
`IDebugEventCallbacksWide` together with its arguments. Pointers to
breakpoints are numbers; an optional wide string is `none` when null. -/
inductive DebugEvent where
  | Breakpoint (Bp : Nat)
  | Exception (Exception : EXCEPTION_RECORD64) (FirstChance : Nat)
  | CreateThread (Handle DataOffset StartOffset : Nat)
  | ExitThread (ExitCode : Nat)
  | CreateProcess (ImageFileHandle Handle BaseOffset ModuleSize : Nat)
      (ModuleName ImageName : Option String)
      (CheckSum TimeDateStamp InitialThreadHandle ThreadDataOffset StartOffset : Nat)
  | ExitProcess (ExitCode : Nat)
  | LoadModule (ImageFileHandle BaseOffset ModuleSize : Nat)
      (ModuleName ImageName : Option String) (CheckSum TimeDateStamp : Nat)
  | UnloadModule (ImageBaseName : Option String) (BaseOffset : Nat)
  | SystemError (Error Level : Nat)
  | SessionStatus (Status : Nat)
  | ChangeDebuggeeState (Flags Argument : Nat)
  | ChangeEngineState (Flags Argument : Nat)
  | ChangeSymbolState (Flags Argument : Nat)

/-- The interest-mask bit under which the debugging subsystem files an event. -/
def DebugEvent.bit : DebugEvent → Nat
  | .Breakpoint .. => DEBUG_EVENT_BREAKPOINT
  | .Exception .. => DEBUG_EVENT_EXCEPTION
  | .CreateThread .. => DEBUG_EVENT_CREATE_THREAD
  | .ExitThread .. => DEBUG_EVENT_EXIT_THREAD
  | .CreateProcess .. => DEBUG_EVENT_CREATE_PROCESS
  | .ExitProcess .. => DEBUG_EVENT_EXIT_PROCESS
  | .LoadModule .. => DEBUG_EVENT_LOAD_MODULE
  | .UnloadModule .. => DEBUG_EVENT_UNLOAD_MODULE
  | .SystemError .. => DEBUG_EVENT_SYSTEM_ERROR
  | .SessionStatus .. => DEBUG_EVENT_SESSION_STATUS
  | .ChangeDebuggeeState .. => DEBUG_EVENT_CHANGE_DEBUGGEE_STATE
  | .ChangeEngineState .. => DEBUG_EVENT_CHANGE_ENGINE_STATE
  | .ChangeSymbolState .. => DEBUG_EVENT_CHANGE_SYMBOL_STATE

/-- Whether an event is an `Exception` event. -/
def DebugEvent.isException : DebugEvent → Bool
  | .Exception .. => true
  | _ => false

/-- `QString::fromUtf16` on an optional wide string: a null pointer gives the
null (empty) string. -/
def fromUtf16 (s : Option String) : String := s.getD ""

/-- What a handler method leaves behind: the calls it made and its `HRESULT`. -/
structure Outcome where
  calls : List Call
  result : Int
  deriving DecidableEq

/-! ## CdbDebugEventCallbackBase -/

namespace CdbDebugEventCallbackBase

/-- Base `Breakpoint`: `return S_OK`. -/
def Breakpoint (_Bp : Nat) : Outcome := ⟨[], S_OK⟩
/-- Base `Exception`: `return S_OK`. -/
def Exception (_e : EXCEPTION_RECORD64) (_FirstChance : Nat) : Outcome := ⟨[], S_OK⟩
/-- Base `CreateThread`: `return S_OK`. -/
def CreateThread (_Handle _DataOffset _StartOffset : Nat) : Outcome := ⟨[], S_OK⟩
/-- Base `ExitThread`: `return S_OK`. -/
def ExitThread (_ExitCode : Nat) : Outcome := ⟨[], S_OK⟩
/-- Base `CreateProcess`: `return S_OK`. -/
def CreateProcess (_ImageFileHandle _Handle _BaseOffset _ModuleSize : Nat)
    (_ModuleName _ImageName : Option String)
    (_CheckSum _TimeDateStamp _InitialThreadHandle _ThreadDataOffset _StartOffset : Nat) :
    Outcome := ⟨[], S_OK⟩
/-- Base `ExitProcess`: `return S_OK`. -/
def ExitProcess (_ExitCode : Nat) : Outcome := ⟨[], S_OK⟩
/-- Base `LoadModule`: `return S_OK`. -/
def LoadModule (_ImageFileHandle _BaseOffset _ModuleSize : Nat)
    (_ModuleName _ImageName : Option String) (_CheckSum _TimeDateStamp : Nat) : Outcome :=
  ⟨[], S_OK⟩
/-- Base `UnloadModule`: `return S_OK`. -/
def UnloadModule (_ImageBaseName : Option String) (_BaseOffset : Nat) : Outcome := ⟨[], S_OK⟩
/-- Base `SystemError`: `return S_OK`. -/
def SystemError (_Error _Level : Nat) : Outcome := ⟨[], S_OK⟩
/-- Base `SessionStatus`: `return S_OK`. -/
def SessionStatus (_Status : Nat) : Outcome := ⟨[], S_OK⟩
/-- Base `ChangeDebuggeeState`: `return S_OK`. -/
def ChangeDebuggeeState (_Flags _Argument : Nat) : Outcome := ⟨[], S_OK⟩
/-- Base `ChangeEngineState`: `return S_OK`. -/
def ChangeEngineState (_Flags _Argument : Nat) : Outcome := ⟨[], S_OK⟩
/-- Base `ChangeSymbolState`: `return S_OK`. -/
def ChangeSymbolState (_Flags _Argument : Nat) : Outcome := ⟨[], S_OK⟩

/-- Virtual dispatch of an event on an object that overrides nothing. -/
def deliver : DebugEvent → Outcome
  | .Breakpoint bp => Breakpoint bp
  | .Exception e fc => Exception e fc
  | .CreateThread h d s => CreateThread h d s
  | .ExitThread c => ExitThread c
  | .CreateProcess i h b m mn im cs ts it td so => CreateProcess i h b m mn im cs ts it td so
  | .ExitProcess c => ExitProcess c
  | .LoadModule i b m mn im cs ts => LoadModule i b m mn im cs ts
  | .UnloadModule n b => UnloadModule n b
  | .SystemError e l => SystemError e l
  | .SessionStatus st => SessionStatus st
  | .ChangeDebuggeeState f a => ChangeDebuggeeState f a
  | .ChangeEngineState f a => ChangeEngineState f a
  | .ChangeSymbolState f a => ChangeSymbolState f a

end CdbDebugEventCallbackBase

/-! ## CdbDebugEventCallback -/

/-- The primary handler: it holds the engine pointer `m_pEngine`. -/
structure CdbDebugEventCallback where
  m_pEngine : CdbDebugEngine

namespace CdbDebugEventCallback

/-- The mask written by `CdbDebugEventCallback::GetInterestMask`. -/
def GetInterestMask : Nat :=
  DEBUG_EVENT_CREATE_PROCESS ||| DEBUG_EVENT_EXIT_PROCESS
    ||| DEBUG_EVENT_LOAD_MODULE ||| DEBUG_EVENT_UNLOAD_MODULE
    ||| DEBUG_EVENT_CREATE_THREAD ||| DEBUG_EVENT_EXIT_THREAD
    ||| DEBUG_EVENT_BREAKPOINT
    ||| DEBUG_EVENT_EXCEPTION

/-- `CdbDebugEventCallback::Breakpoint`. -/
def Breakpoint (_self : CdbDebugEventCallback) (Bp : Nat) : Outcome :=
  ⟨[Call.handleBreakpointEvent Bp], S_OK⟩

/-- `CdbDebugEventCallback::Exception`: the message is formatted into a fresh
stream on the empty string `msg`, shown as application output, and a fatal
code notifies the crash. -/
def Exception (self : CdbDebugEventCallback) (Exception : EXCEPTION_RECORD64)
    (_FirstChance : Nat) : Outcome :=
  let formatted := formatExceptionWithDumper Exception self.m_pEngine.m_d.m_dumper ⟨"", 0⟩
  let msg : String := formatted.1.string
  let fatal : Bool := isFatalException (toLONG Exception.ExceptionCode)
  ⟨formatted.2 ++ [Call.showApplicationOutput msg] ++ (if fatal then [Call.notifyCrashed] else []),
    S_OK⟩

/-- `CdbDebugEventCallback::CreateThread`. -/
def CreateThread (_self : CdbDebugEventCallback) (_Handle _DataOffset _StartOffset : Nat) :
    Outcome :=
  ⟨[Call.updateThreadList], S_OK⟩

/-- `CdbDebugEventCallback::ExitThread`. -/
def ExitThread (_self : CdbDebugEventCallback) (_ExitCode : Nat) : Outcome :=
  ⟨[Call.updateThreadList], S_OK⟩

/-- `CdbDebugEventCallback::CreateProcess`. -/
def CreateProcess (_self : CdbDebugEventCallback)
    (_ImageFileHandle Handle _BaseOffset _ModuleSize : Nat)
    (_ModuleName _ImageName : Option String)
    (_CheckSum _TimeDateStamp InitialThreadHandle _ThreadDataOffset _StartOffset : Nat) :
    Outcome :=
  ⟨[Call.processCreatedAttached Handle InitialThreadHandle], S_OK⟩

/-- `CdbDebugEventCallback::ExitProcess`. -/
def ExitProcess (_self : CdbDebugEventCallback) (ExitCode : Nat) : Outcome :=
  ⟨[Call.processTerminated ExitCode], S_OK⟩

/-- `CdbDebugEventCallback::LoadModule`. -/
def LoadModule (_self : CdbDebugEventCallback) (_ImageFileHandle _BaseOffset _ModuleSize : Nat)
    (ModuleName _ImageName : Option String) (_CheckSum _TimeDateStamp : Nat) : Outcome :=
  ⟨[Call.handleModuleLoad (fromUtf16 ModuleName)], S_OK⟩

/-- `CdbDebugEventCallback::UnloadModule`. -/
def UnloadModule (_self : CdbDebugEventCallback) (_ImageBaseName : Option String)
    (_BaseOffset : Nat) : Outcome :=
  ⟨[Call.updateModules], S_OK⟩

/-- `CdbDebugEventCallback::SystemError`. -/
def SystemError (_self : CdbDebugEventCallback) (_Error _Level : Nat) : Outcome :=
  ⟨[], S_OK⟩

/-- Virtual dispatch of an event on the primary handler: the nine overridden
methods, the base implementation for the rest. -/
def deliver (self : CdbDebugEventCallback) : DebugEvent → Outcome
  | .Breakpoint bp => self.Breakpoint bp
  | .Exception e fc => self.Exception e fc
  | .CreateThread h d s => self.CreateThread h d s
  | .ExitThread c => self.ExitThread c
  | .CreateProcess i h b m mn im cs ts it td so =>
    self.CreateProcess i h b m mn im cs ts it td so
  | .ExitProcess c => self.ExitProcess c
  | .LoadModule i b m mn im cs ts => self.LoadModule i b m mn im cs ts
  | .UnloadModule n b => self.UnloadModule n b
  | .SystemError e l => self.SystemError e l
  | ev => CdbDebugEventCallbackBase.deliver ev

/-- The calls made while a list of events is delivered in order. -/
def deliverAll (self : CdbDebugEventCallback) : List DebugEvent → List Call
  | [] => []
  | ev :: rest => (self.deliver ev).calls ++ deliverAll self rest

end CdbDebugEventCallback

/-! ## CdbExceptionLoggerEventCallback -/

/-- The logging handler: its prefix and the messages logged so far. The
access object `m_access` shows up through the recorded calls. -/
structure CdbExceptionLoggerEventCallback where
  m_logPrefix : String
  m_exceptionMessages : List String
  deriving DecidableEq

namespace CdbExceptionLoggerEventCallback

/-- The constructor: the log starts empty. -/
def new (logPrefix : String) : CdbExceptionLoggerEventCallback := ⟨logPrefix, []⟩

/-- The mask written by `CdbExceptionLoggerEventCallback::GetInterestMask`. -/
def GetInterestMask : Nat := DEBUG_EVENT_EXCEPTION

/-- `CdbExceptionLoggerEventCallback::Exception`: an empty string is pushed to
the back of the log, the record is formatted into it, and the entry is shown
as debugger output under the prefix. -/
def Exception (self : CdbExceptionLoggerEventCallback) (Exception : EXCEPTION_RECORD64)
    (_FirstChance : Nat) : CdbExceptionLoggerEventCallback × Outcome :=
  let back : String := (formatException Exception ⟨"", 0⟩).string
  ({ self with m_exceptionMessages := self.m_exceptionMessages ++ [back] },
    ⟨[Call.showDebuggerOutput self.m_logPrefix back], S_OK⟩)

/-- Virtual dispatch of an event on the logging handler: only `Exception` is
overridden. -/
def deliver (self : CdbExceptionLoggerEventCallback) :
    DebugEvent → CdbExceptionLoggerEventCallback × Outcome
  | .Exception e fc => self.Exception e fc
  | ev => (self, CdbDebugEventCallbackBase.deliver ev)

/-- Delivery of a list of events in order: the final handler and all calls. -/
def deliverAll (self : CdbExceptionLoggerEventCallback) :
    List DebugEvent → CdbExceptionLoggerEventCallback × List Call
  | [] => (self, [])
  | ev :: rest =>
    let r := self.deliver ev
    let rs := deliverAll r.1 rest
    (rs.1, r.2.calls ++ rs.2)

end CdbExceptionLoggerEventCallback

/-! ## IgnoreDebugEventCallback -/

namespace IgnoreDebugEventCallback

/-- The mask written by `IgnoreDebugEventCallback::GetInterestMask`. -/
def GetInterestMask : Nat := 0

/-- Virtual dispatch on the suppressor: it overrides no event method. -/
def deliver (ev : DebugEvent) : Outcome := CdbDebugEventCallbackBase.deliver ev

end IgnoreDebugEventCallback

/-! ## The debug client and EventCallbackRedirector -/

/-- The macro `SUCCEEDED(hr)`. -/
def SUCCEEDED (hr : Int) : Bool := decide (0 ≤ hr)

/-- What the callbacks use of one `CIDebugClient`, an interface of the
debugging engine and no part of the sources: the installed event-callback
pointer (`0` is null) and the `HRESULT`s its `GetEventCallbacksWide` and
`SetEventCallbacksWide` report. A call that succeeds does what the interface
documents. What a call that fails does is not known from the sources (the
specification speaks of an unknown state) and is left open by two parameters:
`failedGetWrites rc` is the value of the out-parameter after a failing query
that found `rc` there, and `afterFailedSet cb` is the callback installed after
a failing request to install `cb`. -/
structure CIDebugClient where
  eventCallbacks : Nat
  getResult : Int
  setResult : Int
  failedGetWrites : Nat → Nat
  afterFailedSet : Nat → Nat

namespace CIDebugClient

/-- Model of `GetEventCallbacksWide(&rc)`: the `HRESULT` and the value of `rc`
after the call. -/
def GetEventCallbacksWide (c : CIDebugClient) (rc : Nat) : Int × Nat :=
  if SUCCEEDED c.getResult then (c.getResult, c.eventCallbacks)
  else (c.getResult, c.failedGetWrites rc)

/-- Model of `SetEventCallbacksWide(cb)`: the `HRESULT` and the client after
the call. -/
def SetEventCallbacksWide (c : CIDebugClient) (cb : Nat) : Int × CIDebugClient :=
  if SUCCEEDED c.setResult then (c.setResult, { c with eventCallbacks := cb })
  else (c.setResult, { c with eventCallbacks := c.afterFailedSet cb })

end CIDebugClient

/-- The debug clients in existence, by address. -/
abbrev Clients := Nat → CIDebugClient

/-- The store with the client at one address replaced. -/
def Clients.set (cs : Clients) (addr : Nat) (c : CIDebugClient) : Clients :=
  fun a => if a = addr then c else cs a

/-- `CdbDebugEventCallbackBase::getEventCallback(clnt)`. -/
def CdbDebugEventCallbackBase.getEventCallback (cs : Clients) (clnt : Nat) : Nat :=
  let rc : Nat := 0
  let r := (cs clnt).GetEventCallbacksWide rc
  if SUCCEEDED r.1 then r.2 else 0

/-- The members of an `EventCallbackRedirector`. -/
structure EventCallbackRedirector where
  m_client : Nat
  m_oldCb : Nat
  deriving DecidableEq

namespace EventCallbackRedirector

/-- The constructor `EventCallbackRedirector(client, cb)`: the object and the
clients afterwards. The result of `SetEventCallbacksWide` is discarded. -/
def new (cs : Clients) (client cb : Nat) : EventCallbackRedirector × Clients :=
  let self : EventCallbackRedirector :=
    ⟨client, CdbDebugEventCallbackBase.getEventCallback cs client⟩
  (self, cs.set client ((cs client).SetEventCallbacksWide cb).2)

/-- The destructor: the clients afterwards. The result of
`SetEventCallbacksWide` is discarded. -/
def delete (self : EventCallbackRedirector) (cs : Clients) : Clients :=
  cs.set self.m_client ((cs self.m_client).SetEventCallbacksWide self.m_oldCb).2

end EventCallbackRedirector

/-! ## Vocabulary of the statements -/

/-- Containment of one text in another, as `QString::contains` decides it:
the characters of `needle` occur consecutively in `text`. -/
def contains (text needle : String) : Prop := needle.data <:+: text.data

instance (text needle : String) : Decidable (contains text needle) :=
  inferInstanceAs (Decidable (needle.data <:+: text.data))

/-- The sixteen lower-case hexadecimal digits, in order of value. -/
def hexDigits : List Char := "0123456789abcdef".data

/-- The value of a digit string read in base sixteen with the digits of
`hexDigits` (a character outside them counts as sixteen, which no numeral
written by `hex` contains). -/
def hexValue (s : List Char) : Nat :=
  s.foldl (fun acc c => 16 * acc + hexDigits.indexOf c) 0

/-- The lower-case hexadecimal numeral of a number, without prefix or padding. -/
def hex (n : Nat) : String := String.mk (Nat.toDigits 16 n)

/-- The non-continuable flag of a record, read as a flag bit. -/
def nonContinuableFlagSet (e : EXCEPTION_RECORD64) : Bool :=
  e.ExceptionFlags &&& EXCEPTION_NONCONTINUABLE != 0

/-- The text a record gets in a fresh stream from the plain `formatException`. -/
def plainText (e : EXCEPTION_RECORD64) : String := (formatException e ⟨"", 0⟩).string

/-- The text the `switch` of `formatException` writes for a record. -/
def switchText (e : EXCEPTION_RECORD64) : String := (formatExceptionSwitch e ⟨"", 16⟩).string

/-- A record with the given code, flags, address and first two parameters; the
remaining parameters are zero. -/
def sampleRecord (code flags address p0 p1 : Nat) : EXCEPTION_RECORD64 :=
  { ExceptionCode := code
    ExceptionFlags := flags
    ExceptionRecord := 0
    ExceptionAddress := address
    NumberParameters := 2
    ExceptionInformation := fun i => if i = 0 then p0 else if i = 1 then p1 else 0 }

/-- Whether a call pushes application output. -/
def Call.isApplicationOutput : Call → Bool
  | .showApplicationOutput _ => true
  | _ => false

/-- Whether a call goes to the dumper (current thread id or stack trace). -/
def Call.isDumperCall : Call → Bool
  | .GetCurrentThreadId => true
  | .createStackTraceContext _ => true
  | _ => false

/-- A client whose calls succeed and which has the given callback installed. -/
def sampleClients (installed : Nat) : Clients :=
  fun _ => ⟨installed, S_OK, S_OK, fun rc => rc, fun _ => installed⟩

/-- A primary handler whose dumper reports the given thread id and trace. -/
def sampleCallback (threadId : Option Nat) (trace : Option String) : CdbDebugEventCallback :=
  ⟨⟨⟨⟨threadId, fun _ => trace⟩⟩⟩⟩

/-- The static phrases of the description table, by exception code: every
`case` of the `switch` whose text is a fixed string. -/
def phraseTable : List (Nat × String) :=
  [(cppExceptionCode, "C++ exception"),
   (startupCompleteTrap, "Startup complete"),
   (EXCEPTION_ARRAY_BOUNDS_EXCEEDED, "arrary bounds exceeded"),
   (EXCEPTION_BREAKPOINT, "breakpoint"),
   (EXCEPTION_DATATYPE_MISALIGNMENT, "datatype misalignment"),
   (EXCEPTION_FLT_DENORMAL_OPERAND, "floating point exception"),
   (EXCEPTION_FLT_DIVIDE_BY_ZERO, "division by zero"),
   (EXCEPTION_FLT_INEXACT_RESULT,
     " floating-point operation cannot be represented exactly as a decimal fraction"),
   (EXCEPTION_FLT_INVALID_OPERATION, "invalid floating-point operation"),
   (EXCEPTION_FLT_OVERFLOW, "floating-point overflow"),
   (EXCEPTION_FLT_STACK_CHECK, "floating-point operation stack over/underflow"),
   (EXCEPTION_FLT_UNDERFLOW, "floating-point UNDERFLOW"),
   (EXCEPTION_ILLEGAL_INSTRUCTION, "invalid instruction"),
   (EXCEPTION_IN_PAGE_ERROR, "page in error"),
   (EXCEPTION_INT_DIVIDE_BY_ZERO, "integer division by zero"),
   (EXCEPTION_INT_OVERFLOW, "integer overflow"),
   (EXCEPTION_INVALID_DISPOSITION, "invalid disposition to exception dispatcher"),
   (EXCEPTION_NONCONTINUABLE_EXCEPTION,
     "attempt to continue execution after noncontinuable exception"),
   (EXCEPTION_PRIV_INSTRUCTION, "privileged instruction"),
   (EXCEPTION_SINGLE_STEP, "single step"),
   (EXCEPTION_STACK_OVERFLOW, "stack_overflow")]

/-- The fixed phrase of a code: its table entry, empty without one. -/
def staticPhrase (code : Nat) : String := (phraseTable.lookup code).getD ""

/-- The phrase of an access violation: the kind of access from the first
parameter and the address from the second. -/
def accessViolationPhrase (e : EXCEPTION_RECORD64) : String :=
  (if e.ExceptionInformation 0 = 0 then "read" else "write") ++ " access violation at: 0x" ++
    hex (e.ExceptionInformation 1)

/-- The layout of the text of a record around a given phrase and note. -/
def describedText (e : EXCEPTION_RECORD64) (phrase note : String) : String :=
  "\nException at 0x" ++ hex e.ExceptionAddress ++ ", code: 0x" ++ hex e.ExceptionCode ++ ": " ++
    phrase ++ ", flags=0x" ++ hex e.ExceptionFlags ++ note ++ "\n\n"

/-- One step of a left-to-right search for `pat`: `k` characters of `pat` are
matched so far; a mismatch falls back to the first character of `pat`. -/
def scanStep (pat : List Char) (k : Nat) (c : Char) : Nat :=
  if k = pat.length then k
  else if pat.get? k = some c then k + 1
  else if pat.head? = some c then 1
  else 0

/-- The search state after reading `s` from state `k`. -/
def scan (pat : List Char) (k : Nat) (s : List Char) : Nat := s.foldl (scanStep pat) k

/-- The eight event kinds the primary handler is said to be interested in:
process create and exit, module load and unload, thread create and exit,
breakpoint and exception. -/
def DebugEvent.inPrimarySet : DebugEvent → Bool
  | .CreateProcess .. => true
  | .ExitProcess .. => true
  | .LoadModule .. => true
  | .UnloadModule .. => true
  | .CreateThread .. => true
  | .ExitThread .. => true
  | .Breakpoint .. => true
  | .Exception .. => true
  | _ => false

/-- The failure code `E_FAIL` (`0x80004005`) read as a `LONG`. -/
def E_FAIL : Int := toLONG 0x80004005

/-- Clients that all have the given callback installed and report the given
results from `GetEventCallbacksWide` and `SetEventCallbacksWide`; a failing
query of these clients leaves the out-parameter, and a failing install leaves
the installed callback, as it was. -/
def clientsWith (installed : Nat) (getResult setResult : Int) : Clients :=
  fun _ => ⟨installed, getResult, setResult, fun rc => rc, fun _ => installed⟩

end Internal
end Debugger

/-!
# The progress parser of the CMake build step

A shallow embedding of `CmakeProgressParser::handleLine` in
`src/plugins/cmakeprojectmanager/cmakebuildstep.cpp`. The two regular
expressions are values of a small pattern type (literal characters and greedy
starred character classes, with or without capture) matched with backtracking
from the start of the line; `QString::toInt` and the conversion of the quotient
to `int` are functions of their own.
-/

namespace CMakeProjectManager
namespace Internal

/-- The enumeration `Utils::OutputFormat` (declared in `utils/outputformat.h`). -/
inductive OutputFormat where
  | NormalMessageFormat
  | ErrorMessageFormat
  | LogMessageFormat
  | DebugFormat
  | StdOutFormat
  | StdErrFormat
  | GeneralMessageFormat
  deriving DecidableEq, Repr

/-- The enumeration `Utils::OutputLineParser::Status`. -/
inductive Status where
  | Done
  | InProgress
  | NotHandled
  deriving DecidableEq, Repr

/-- The class `\s` of a `QRegularExpression` without Unicode properties: space,
tab, line feed, vertical tab, form feed and carriage return. -/
def isSpace (c : Char) : Bool :=
  c = ' ' || c = '\t' || c = '\n' || c = Char.ofNat 11 || c = Char.ofNat 12 || c = '\r'

/-- The class `\d` of a `QRegularExpression` without Unicode properties: the
ten ASCII digits. -/
def isDigit (c : Char) : Bool := decide ('0'.toNat ≤ c.toNat) && decide (c.toNat ≤ '9'.toNat)

/-- An item of a pattern: a literal character, or a character class under a
greedy star, as a capture group or not. -/
inductive Item where
  | lit (c : Char)
  | star (cls : Char → Bool) (capture : Bool)

/-- The first success of `f` on the lengths `n`, `n - 1`, .., `0`, in this
order: the longest repetition is tried first. -/
def tryLengths {α : Type} (f : Nat → Option α) : Nat → Option α
  | 0 => f 0
  | k + 1 =>
    match f (k + 1) with
    | some r => some r
    | none => tryLengths f k

/-- A match of the items at the start of `s` (the pattern is anchored by `^`
and open at the end): the texts of the capture groups in order, or `none`
without a match. A starred class repeats at most as often as the class
matches and gives characters back while the rest of the pattern fails. -/
def matchItems : List Item → List Char → Option (List (List Char))
  | [], _ => some []
  | .lit c :: items, s =>
    match s with
    | x :: rest => if x = c then matchItems items rest else none
    | [] => none
  | .star cls capture :: items, s =>
    tryLengths
      (fun k => (matchItems items (s.drop k)).map fun caps =>
        if capture then s.take k :: caps else caps)
      (s.takeWhile cls).length

/-- The pattern `^\[\s*(\d*)%\]`. -/
def percentProgress : List Item :=
  [.lit '[', .star isSpace false, .star isDigit true, .lit '%', .lit ']']

/-- The pattern `^\[\s*(\d*)/\s*(\d*)`. -/
def ninjaProgress : List Item :=
  [.lit '[', .star isSpace false, .star isDigit true, .lit '/', .star isSpace false,
    .star isDigit true]

/-- Model of `QRegularExpressionMatch::captured(n)` for `n ≥ 1`. -/
def captured (caps : List (List Char)) (n : Nat) : List Char := caps.getD (n - 1) []

/-- The largest value of an `int`. -/
def INT_MAX : Nat := 2147483647

/-- The number a string of ASCII digits denotes in base ten. -/
def decimalValue (s : List Char) : Nat :=
  s.foldl (fun acc c => 10 * acc + (c.toNat - '0'.toNat)) 0

/-- Model of `QString::toInt(&ok)` on the texts the capture groups give it,
strings of ASCII digits: the value and `ok`. The conversion fails, with value
`0`, on the empty string and on a number above `INT_MAX`. -/
def toInt (s : List Char) : Int × Bool :=
  if s ≠ [] ∧ s.all isDigit = true ∧ decimalValue s ≤ INT_MAX then
    ((decimalValue s : Nat), true)
  else (0, false)

/-- The expression `static_cast<int>(100.0 * done / all)` for `0 ≤ done` and
`0 < all`, the only values digit strings give. The product is exact in a
`double`, and the rounded quotient lies between the integer quotient and its
successor (a quotient that is no integer is at least `1 / all` away from the
next integer, far more than the spacing of `double`s of its size), so the
truncation is the integer quotient. A quotient above `INT_MAX` has no defined
conversion: `none`. -/
def percentOfQuotient (done all : Int) : Option Int :=
  if 100 * done / all ≤ (INT_MAX : Int) then some (100 * done / all) else none

/-- The state of a `CmakeProgressParser`. -/
structure CmakeProgressParser where
  m_useNinja : Bool
  deriving DecidableEq, Repr

/-- What a call of `handleLine` leaves behind: the parser, the returned status
and the emissions of the signal `progress(int)` in order: `some v` is an
emission with value `v`, `none` an emission whose value is not defined (the
conversion of a quotient above `INT_MAX`). -/
structure HandleLineOutcome where
  parser : CmakeProgressParser
  result : Status
  progress : List (Option Int)
  deriving DecidableEq, Repr

namespace CmakeProgressParser

/-- `CmakeProgressParser::hasDetectedRedirection`. -/
def hasDetectedRedirection (self : CmakeProgressParser) : Bool := self.m_useNinja

/-- `CmakeProgressParser::handleLine`. -/
def handleLine (self : CmakeProgressParser) (line : String) (format : OutputFormat) :
    HandleLineOutcome :=
  if format ≠ OutputFormat.StdOutFormat then ⟨self, Status.NotHandled, []⟩
  else
    match matchItems percentProgress line.data with
    | some caps =>
      let percent := toInt (captured caps 1)
      ⟨self, Status.Done, if percent.2 then [some percent.1] else []⟩
    | none =>
      match matchItems ninjaProgress line.data with
      | some caps =>
        let self : CmakeProgressParser := { self with m_useNinja := true }
        let done := toInt (captured caps 1)
        if done.2 then
          let all := toInt (captured caps 2)
          if all.2 && all.1 != 0 then
            ⟨self, Status.Done, [percentOfQuotient done.1 all.1]⟩
          else ⟨self, Status.Done, []⟩
        else ⟨self, Status.Done, []⟩
      | none => ⟨self, Status.NotHandled, []⟩

end CmakeProgressParser

/-- A line that starts with `[`, whitespace, the digits `ds` and `%]`. -/
def PercentLine (line ds : List Char) : Prop :=
  ∃ ws rest : List Char, line = '[' :: (ws ++ (ds ++ '%' :: ']' :: rest)) ∧
    (∀ c ∈ ws, isSpace c = true) ∧ (∀ c ∈ ds, isDigit c = true)

/-- A line that starts with `[`, whitespace, the digits `ds` and `/`, and goes
on with `tail`. -/
def NinjaLine (line ds tail : List Char) : Prop :=
  ∃ ws : List Char, line = '[' :: (ws ++ (ds ++ '/' :: tail)) ∧
    (∀ c ∈ ws, isSpace c = true) ∧ (∀ c ∈ ds, isDigit c = true)

/-- The second digit group of a ninja line: the digits after the whitespace
that follows the `/`. -/
def secondGroup (tail : List Char) : List Char := (tail.dropWhile isSpace).takeWhile isDigit

end Internal
end CMakeProjectManager

namespace Debugger
namespace Internal

/-! ## Classification theorems -/

theorem toLONG_inj (a b : Nat) (ha : a < 2 ^ 32) (hb : b < 2 ^ 32)
    (h : toLONG a = toLONG b) : a = b := by
  unfold toLONG at h
  rw [Nat.mod_eq_of_lt ha, Nat.mod_eq_of_lt hb] at h
  split_ifs at h <;> omega

theorem isFatalException_eq_false_iff (c : Nat) (hc : c < 2 ^ 32) :
    isFatalException (toLONG c) = false ↔
      (c = EXCEPTION_BREAKPOINT ∨ c = EXCEPTION_SINGLE_STEP ∨ c = startupCompleteTrap
        ∨ c = rpcServerUnavailableExceptionCode) := by
  have inj : ∀ k : Nat, k < 2 ^ 32 → (toLONG c = toLONG k ↔ c = k) := fun k hk =>
    ⟨toLONG_inj c k hc hk, fun h => by rw [h]⟩
  have h1 := inj EXCEPTION_BREAKPOINT (by decide)
  have h2 := inj EXCEPTION_SINGLE_STEP (by decide)
  have h3 := inj startupCompleteTrap (by decide)
  have h4 := inj rpcServerUnavailableExceptionCode (by decide)
  unfold isFatalException
  split_ifs with g1 g2 g3 g4
  · simp [h1.mp g1]
  · simp [h2.mp g2]
  · simp [h3.mp g3]
  · simp [h4.mp g4]
  · have n1 := mt h1.mpr g1
    have n2 := mt h2.mpr g2
    have n3 := mt h3.mpr g3
    have n4 := mt h4.mpr g4
    simp [n1, n2, n3, n4]

/-- C1: for every 32-bit exception code `c`, `isFatalException` returns `false`
exactly when `c` is the breakpoint code `0x80000003`, the single-step code
`0x80000004`, the startup-complete trap `0x406d1388` or the
RPC-server-unavailable code `0x6ba`; every other code, the C++ exception code
`0xe06d7363` among them, gives `true`; and two records with the same code are
classified alike. -/
theorem isFatalException_table (c : Nat) (hc : c < 2 ^ 32) :
    (isFatalException (toLONG c) = false ↔
      (c = 0x80000003 ∨ c = 0x80000004 ∨ c = 0x406d1388 ∨ c = 0x6ba)) ∧
    (¬ (c = 0x80000003 ∨ c = 0x80000004 ∨ c = 0x406d1388 ∨ c = 0x6ba) →
      isFatalException (toLONG c) = true) ∧
    isFatalException (toLONG 0xe06d7363) = true ∧
    (∀ e₁ e₂ : EXCEPTION_RECORD64, e₁.ExceptionCode = e₂.ExceptionCode →
      isFatalException (toLONG e₁.ExceptionCode) = isFatalException (toLONG e₂.ExceptionCode)) := by
  have key := isFatalException_eq_false_iff c hc
  simp only [EXCEPTION_BREAKPOINT, EXCEPTION_SINGLE_STEP, startupCompleteTrap,
    rpcServerUnavailableExceptionCode] at key
  refine ⟨key, fun h => ?_, by decide, fun e₁ e₂ h => by rw [h]⟩
  cases hf : isFatalException (toLONG c)
  · exact absurd (key.mp hf) h
  · rfl

theorem isFatalException_table_witness :
    (isFatalException (toLONG 0x6ba) = false ↔
      ((0x6ba : Nat) = 0x80000003 ∨ (0x6ba : Nat) = 0x80000004 ∨ (0x6ba : Nat) = 0x406d1388
        ∨ (0x6ba : Nat) = 0x6ba)) ∧
    isFatalException (toLONG 0xC0000005) = true :=
  ⟨(isFatalException_table 0x6ba (by decide)).1,
    (isFatalException_table 0xC0000005 (by decide)).2.1 (by decide)⟩

/-! ## Hexadecimal numerals -/

theorem digitChar_mem_hexDigits (d : Nat) (hd : d < 16) : Nat.digitChar d ∈ hexDigits := by
  interval_cases d <;> decide

theorem toDigitsCore_mem_hexDigits (fuel : Nat) :
    ∀ (n : Nat) (ds : List Char), (∀ c ∈ ds, c ∈ hexDigits) →
      ∀ c ∈ Nat.toDigitsCore 16 fuel n ds, c ∈ hexDigits := by
  induction fuel with
  | zero => intro n ds hds c hc; exact hds c (by simpa [Nat.toDigitsCore] using hc)
  | succ fuel ih =>
    intro n ds hds c hc
    have hcons : ∀ x ∈ Nat.digitChar (n % 16) :: ds, x ∈ hexDigits := by
      intro x hx
      rcases List.mem_cons.mp hx with rfl | hx
      · exact digitChar_mem_hexDigits _ (Nat.mod_lt _ (by decide))
      · exact hds x hx
    simp only [Nat.toDigitsCore] at hc
    split_ifs at hc
    · exact hcons c hc
    · exact ih _ _ hcons c hc

theorem hex_mem_hexDigits (n : Nat) : ∀ c ∈ (hex n).data, c ∈ hexDigits :=
  toDigitsCore_mem_hexDigits _ n [] (fun _ h => absurd h (List.not_mem_nil _))

theorem indexOf_digitChar (d : Nat) (hd : d < 16) : hexDigits.indexOf (Nat.digitChar d) = d := by
  interval_cases d <;> decide

theorem toDigitsCore_append (fuel : Nat) :
    ∀ (n : Nat) (ds : List Char),
      Nat.toDigitsCore 16 fuel n ds = Nat.toDigitsCore 16 fuel n [] ++ ds := by
  induction fuel with
  | zero => intro n ds; simp [Nat.toDigitsCore]
  | succ fuel ih =>
    intro n ds
    simp only [Nat.toDigitsCore]
    split_ifs
    · simp
    · rw [ih _ (_ :: ds), ih _ [_]]
      simp

theorem hexValue_append_singleton (l : List Char) (c : Char) :
    hexValue (l ++ [c]) = 16 * hexValue l + hexDigits.indexOf c := by
  simp [hexValue, List.foldl_append]

theorem hexValue_toDigitsCore (fuel : Nat) :
    ∀ n : Nat, n < fuel → hexValue (Nat.toDigitsCore 16 fuel n []) = n := by
  induction fuel with
  | zero => intro n hn; omega
  | succ fuel ih =>
    intro n hn
    have hidx := indexOf_digitChar (n % 16) (Nat.mod_lt _ (by decide))
    simp only [Nat.toDigitsCore]
    split_ifs with h
    · have : hexValue [Nat.digitChar (n % 16)] = hexDigits.indexOf (Nat.digitChar (n % 16)) := by
        simp [hexValue]
      rw [this, hidx]
      omega
    · rw [toDigitsCore_append, hexValue_append_singleton, hidx, ih (n / 16) (by omega)]
      omega

/-- The numeral written for `n` reads back as `n` in base sixteen. -/
theorem hexValue_hex (n : Nat) : hexValue (hex n).data = n :=
  hexValue_toDigitsCore (n + 1) n (Nat.lt_succ_self n)

/-! ## Searching a text -/

theorem scan_append (pat : List Char) (k : Nat) (a b : List Char) :
    scan pat k (a ++ b) = scan pat (scan pat k a) b := by
  simp [scan, List.foldl_append]

theorem scan_full (pat : List Char) (s : List Char) : scan pat pat.length s = pat.length := by
  induction s with
  | nil => rfl
  | cons c s ih =>
    have : scanStep pat pat.length c = pat.length := by simp [scanStep]
    simpa [scan, this] using ih

theorem scanStep_le (pat : List Char) (hpat : pat ≠ []) (k : Nat) (c : Char)
    (hk : k ≤ pat.length) : scanStep pat k c ≤ pat.length := by
  have hpos : 0 < pat.length := List.length_pos.mpr hpat
  unfold scanStep
  split_ifs <;> omega

theorem scan_le (pat : List Char) (hpat : pat ≠ []) (s : List Char) :
    ∀ k, k ≤ pat.length → scan pat k s ≤ pat.length := by
  induction s with
  | nil => intro k hk; simpa [scan] using hk
  | cons c s ih =>
    intro k hk
    have := ih _ (scanStep_le pat hpat k c hk)
    simpa [scan] using this

/-- A text that contains `pat` drives the search into its final state,
provided `pat` read from any state ends there. -/
theorem scan_of_infix (pat : List Char) (hpat : pat ≠ [])
    (hself : ∀ k, k ≤ pat.length → scan pat k pat = pat.length)
    (s : List Char) (h : pat <:+: s) : scan pat 0 s = pat.length := by
  obtain ⟨a, b, rfl⟩ := h
  rw [scan_append, scan_append, hself _ (scan_le pat hpat a 0 (Nat.zero_le _)), scan_full]

theorem scan_zero_append (pat a b : List Char) (ha : scan pat 0 a = 0)
    (hb : scan pat 0 b = 0) : scan pat 0 (a ++ b) = 0 := by
  rw [scan_append, ha, hb]

theorem scan_zero_of_head_not_mem (pat : List Char) (p : Char) (rest : List Char)
    (hpat : pat = p :: rest) (s : List Char) (hs : p ∉ s) : scan pat 0 s = 0 := by
  subst hpat
  induction s with
  | nil => rfl
  | cons c s ih =>
    have hc : p ≠ c := fun h => hs (by simp [h])
    have hs2 : p ∉ s := fun h => hs (List.mem_cons_of_mem _ h)
    have : scanStep (p :: rest) 0 c = 0 := by simp [scanStep, hc]
    simpa [scan, this] using ih hs2

theorem scan_zero_hex (pat : List Char) (p : Char) (rest : List Char)
    (hpat : pat = p :: rest) (hp : p ∉ hexDigits) (n : Nat) : scan pat 0 (hex n).data = 0 :=
  scan_zero_of_head_not_mem pat p rest hpat _ (fun h => hp (hex_mem_hexDigits n p h))

/-! ## The text written by `formatException` -/

theorem writeString_eq (text : String) (base : Nat) (t : String) :
    (QTextStream.mk text base).writeString t = ⟨text ++ t, base⟩ := rfl

theorem writeNumber_eq (text : String) (n : Nat) :
    (QTextStream.mk text 16).writeNumber n = ⟨text ++ hex n, 16⟩ := rfl

theorem ite_stream_eq (c : Prop) [Decidable c] (text : String) (a b a₀ b₀ : QTextStream)
    (ha : a = ⟨text ++ a₀.string, 16⟩) (hb : b = ⟨text ++ b₀.string, 16⟩) :
    (if c then a else b) = ⟨text ++ (if c then a₀ else b₀).string, 16⟩ := by
  split_ifs
  · exact ha
  · exact hb

theorem formatExceptionSwitch_eq (e : EXCEPTION_RECORD64) (str : QTextStream)
    (hbase : str.integerBase = 16) :
    formatExceptionSwitch e str = ⟨str.string ++ switchText e, 16⟩ := by
  obtain ⟨text, base⟩ := str
  simp only at hbase
  subst hbase
  unfold switchText formatExceptionSwitch
  repeat' apply ite_stream_eq
  all_goals
    simp only [writeString_eq, writeNumber_eq, String.empty_append, String.append_assoc,
      String.append_empty]

theorem formatException_eq (e : EXCEPTION_RECORD64) (str : QTextStream) :
    formatException e str =
      ⟨str.string ++ ("\nException at 0x" ++ (hex e.ExceptionAddress ++ (", code: 0x" ++
        (hex e.ExceptionCode ++ (": " ++ (switchText e ++ (", flags=0x" ++
        (hex e.ExceptionFlags ++
          ((if e.ExceptionFlags = EXCEPTION_NONCONTINUABLE then
              " (execution cannot be continued)" else "") ++ "\n\n"))))))))), 10⟩ := by
  obtain ⟨text, base⟩ := str
  unfold formatException
  simp only [QTextStream.setIntegerBase, writeString_eq, writeNumber_eq]
  rw [formatExceptionSwitch_eq e _ rfl]
  split_ifs <;>
    simp only [writeString_eq, writeNumber_eq, String.empty_append, String.append_assoc,
      String.append_empty]

theorem plainText_eq (e : EXCEPTION_RECORD64) :
    plainText e =
      "\nException at 0x" ++ (hex e.ExceptionAddress ++ (", code: 0x" ++
        (hex e.ExceptionCode ++ (": " ++ (switchText e ++ (", flags=0x" ++
        (hex e.ExceptionFlags ++
          ((if e.ExceptionFlags = EXCEPTION_NONCONTINUABLE then
              " (execution cannot be continued)" else "") ++ "\n\n")))))))) := by
  unfold plainText
  rw [formatException_eq]
  simp only [String.empty_append]

/-! ## Which texts `formatException` can contain -/

theorem contains_of_eq (text a needle b : String) (h : text = a ++ (needle ++ b)) :
    contains text needle := by
  unfold contains
  exact ⟨a.data, b.data, by rw [h]; simp only [String.data_append, List.append_assoc]⟩

theorem contains_trans (text mid needle : String) (h₁ : contains mid needle)
    (h₂ : contains text mid) : contains text needle :=
  List.IsInfix.trans h₁ h₂

theorem ite_scan_zero (pat : List Char) (c : Prop) [Decidable c] (a b : QTextStream)
    (ha : scan pat 0 a.string.data = 0) (hb : scan pat 0 b.string.data = 0) :
    scan pat 0 (if c then a else b).string.data = 0 := by
  split_ifs
  · exact ha
  · exact hb

/-- The pattern `ued` occurs in `continued` and in no text the `switch` writes. -/
theorem switchText_scan_ued (e : EXCEPTION_RECORD64) :
    scan "ued".data 0 (switchText e).data = 0 := by
  unfold switchText formatExceptionSwitch
  repeat' apply ite_scan_zero
  case hb.hb.ha =>
    simp only [writeString_eq, writeNumber_eq, String.empty_append, String.data_append]
    refine scan_zero_append _ _ _ ?_ (scan_zero_hex _ 'u' "ed".data rfl (by decide) _)
    cases (e.ExceptionInformation 0 != 0) <;> decide
  all_goals decide

theorem not_contains_of_scan_zero (pat : String) (text : String) (hpat : pat.data ≠ [])
    (hself : ∀ k, k ≤ pat.data.length → scan pat.data k pat.data = pat.data.length)
    (h : scan pat.data 0 text.data = 0) : ¬ contains text pat := by
  intro hc
  have := scan_of_infix pat.data hpat hself text.data hc
  rw [h] at this
  exact hpat (List.length_eq_zero.mp this.symm)

theorem scan_ued_self : ∀ k, k ≤ "ued".data.length →
    scan "ued".data k "ued".data = "ued".data.length := by
  intro k hk
  have hk3 : k ≤ 3 := hk
  interval_cases k <;> decide

/-- The note on non-continuable exceptions is in the text of a record exactly
when its flags word equals `EXCEPTION_NONCONTINUABLE`. -/
theorem plainText_contains_note_iff (e : EXCEPTION_RECORD64) :
    contains (plainText e) "execution cannot be continued" ↔
      e.ExceptionFlags = EXCEPTION_NONCONTINUABLE := by
  constructor
  · intro hc
    by_contra hne
    have hued : contains (plainText e) "ued" :=
      contains_trans _ "execution cannot be continued" _ (by decide) hc
    refine not_contains_of_scan_zero "ued" _ (by decide) scan_ued_self ?_ hued
    rw [plainText_eq, if_neg hne]
    simp only [String.data_append]
    have hx := fun n => scan_zero_hex "ued".data 'u' "ed".data rfl (by decide) n
    refine scan_zero_append _ _ _ (by decide) (scan_zero_append _ _ _ (hx _) ?_)
    refine scan_zero_append _ _ _ (by decide) (scan_zero_append _ _ _ (hx _) ?_)
    refine scan_zero_append _ _ _ (by decide)
      (scan_zero_append _ _ _ (switchText_scan_ued e) ?_)
    refine scan_zero_append _ _ _ (by decide) (scan_zero_append _ _ _ (hx _) ?_)
    decide
  · intro hflag
    rw [plainText_eq, if_pos hflag]
    refine contains_of_eq _ ("\nException at 0x" ++ (hex e.ExceptionAddress ++ (", code: 0x" ++
        (hex e.ExceptionCode ++ (": " ++ (switchText e ++ (", flags=0x" ++
        (hex e.ExceptionFlags ++ " ("))))))))
      _ ")\n\n" ?_
    have : " (execution cannot be continued)" ++ "\n\n"
        = " (" ++ ("execution cannot be continued" ++ ")\n\n") := by decide
    simp only [String.append_assoc, this]

/-- C2: on the access-violation record with flags `0x11` (non-continuable and
nested call) the non-continuable bit is set, yet the text written by
`formatException` ends after the flags and does not contain
`execution cannot be continued`. -/
theorem formatException_note_missing :
    nonContinuableFlagSet (sampleRecord 0xC0000005 0x11 0x401000 1 0xdeadbeef) = true ∧
    plainText (sampleRecord 0xC0000005 0x11 0x401000 1 0xdeadbeef) =
      "\nException at 0x401000, code: 0xc0000005: write access violation at: 0xdeadbeef, flags=0x11\n\n" ∧
    ¬ contains (plainText (sampleRecord 0xC0000005 0x11 0x401000 1 0xdeadbeef))
      "execution cannot be continued" := by
  refine ⟨by decide, by decide, ?_⟩
  rw [plainText_contains_note_iff]
  decide

/-- A pattern whose first character is no hexadecimal digit, and which the
search does not even begin in the fixed parts, the `switch` text and the note
of a record, does not occur in the text of the record. -/
theorem plainText_scan_zero (e : EXCEPTION_RECORD64) (pat : List Char) (p : Char)
    (rest : List Char) (hpat : pat = p :: rest) (hp : p ∉ hexDigits)
    (h₀ : scan pat 0 "\nException at 0x".data = 0) (h₁ : scan pat 0 ", code: 0x".data = 0)
    (h₂ : scan pat 0 ": ".data = 0) (h₃ : scan pat 0 ", flags=0x".data = 0)
    (h₄ : scan pat 0 "\n\n".data = 0)
    (hswitch : scan pat 0 (switchText e).data = 0)
    (hnote : scan pat 0 (if e.ExceptionFlags = EXCEPTION_NONCONTINUABLE then
      " (execution cannot be continued)" else "").data = 0) :
    scan pat 0 (plainText e).data = 0 := by
  rw [plainText_eq]
  simp only [String.data_append]
  have hx := fun n => scan_zero_hex pat p rest hpat hp n
  refine scan_zero_append _ _ _ h₀ (scan_zero_append _ _ _ (hx _) ?_)
  refine scan_zero_append _ _ _ h₁ (scan_zero_append _ _ _ (hx _) ?_)
  refine scan_zero_append _ _ _ h₂ (scan_zero_append _ _ _ hswitch ?_)
  refine scan_zero_append _ _ _ h₃ (scan_zero_append _ _ _ (hx _) ?_)
  exact scan_zero_append _ _ _ hnote h₄

theorem switchText_accessViolation (e : EXCEPTION_RECORD64)
    (hcode : e.ExceptionCode = EXCEPTION_ACCESS_VIOLATION) :
    switchText e =
      (if (e.ExceptionInformation 0 != 0) = true then "write" else "read") ++
        (" access violation at: 0x" ++ hex (e.ExceptionInformation 1)) := by
  have n₁ : ¬ e.ExceptionCode = cppExceptionCode := by rw [hcode]; decide
  have n₂ : ¬ e.ExceptionCode = startupCompleteTrap := by rw [hcode]; decide
  unfold switchText formatExceptionSwitch
  rw [if_neg n₁, if_neg n₂, if_pos hcode]
  simp only [writeString_eq, writeNumber_eq, String.empty_append, String.append_assoc]

theorem contains_switchText (e : EXCEPTION_RECORD64) (needle : String)
    (h : contains (switchText e) needle) : contains (plainText e) needle := by
  refine contains_trans _ _ _ h ?_
  rw [plainText_eq]
  exact contains_of_eq _ ("\nException at 0x" ++ (hex e.ExceptionAddress ++ (", code: 0x" ++
      (hex e.ExceptionCode ++ ": ")))) _ (", flags=0x" ++ (hex e.ExceptionFlags ++
      ((if e.ExceptionFlags = EXCEPTION_NONCONTINUABLE then
        " (execution cannot be continued)" else "") ++ "\n\n")))
    (by simp only [String.append_assoc])

theorem scan_w_self : ∀ k, k ≤ "w".data.length →
    scan "w".data k "w".data = "w".data.length := by
  intro k hk
  have hk1 : k ≤ 1 := hk
  interval_cases k <;> decide

/-- C3: for an access-violation record (code `0xC0000005`) with parameters
`p0`, `p1`: if `p0 = 1` the text contains `write access violation`, followed by
` at: ` and the address `0x` with `p1` in lower-case hexadecimal; if `p0 = 0`
it contains `read access violation` with the same address and does not contain
`write`; the numeral of `0xdeadbeef` is `deadbeef`, and the numeral of `p1`
consists of lower-case hexadecimal digits and reads back as `p1`. -/
theorem formatException_accessViolation (e : EXCEPTION_RECORD64)
    (hcode : e.ExceptionCode = 0xC0000005) :
    (e.ExceptionInformation 0 = 1 →
      contains (plainText e) "write access violation" ∧
      contains (plainText e) ("0x" ++ hex (e.ExceptionInformation 1)) ∧
      contains (plainText e)
        ("write access violation at: 0x" ++ hex (e.ExceptionInformation 1))) ∧
    (e.ExceptionInformation 0 = 0 →
      contains (plainText e) "read access violation" ∧
      contains (plainText e) ("0x" ++ hex (e.ExceptionInformation 1)) ∧
      contains (plainText e)
        ("read access violation at: 0x" ++ hex (e.ExceptionInformation 1)) ∧
      ¬ contains (plainText e) "write") ∧
    hex 0xdeadbeef = "deadbeef" ∧
    hexValue (hex (e.ExceptionInformation 1)).data = e.ExceptionInformation 1 ∧
    (∀ c ∈ (hex (e.ExceptionInformation 1)).data, c ∈ "0123456789abcdef".data) := by
  have hsw := switchText_accessViolation e hcode
  refine ⟨fun h0 => ?_, fun h0 => ?_, by decide, hexValue_hex _, hex_mem_hexDigits _⟩
  · rw [h0, if_pos (by decide)] at hsw
    refine ⟨contains_switchText e _ ?_, contains_switchText e _ ?_,
      contains_switchText e _ ?_⟩
    · rw [hsw]
      exact contains_of_eq _ "" _ (" at: 0x" ++ hex (e.ExceptionInformation 1))
        (by rw [String.empty_append, ← String.append_assoc, ← String.append_assoc]; rfl)
    · rw [hsw]
      exact contains_of_eq _ "write access violation at: " _ ""
        (by rw [String.append_empty, ← String.append_assoc, ← String.append_assoc]; rfl)
    · rw [hsw]
      exact contains_of_eq _ "" _ ""
        (by rw [String.append_empty, String.empty_append, ← String.append_assoc]; rfl)
  · rw [h0, if_neg (by decide)] at hsw
    refine ⟨contains_switchText e _ ?_, contains_switchText e _ ?_,
      contains_switchText e _ ?_, ?_⟩
    · rw [hsw]
      exact contains_of_eq _ "" _ (" at: 0x" ++ hex (e.ExceptionInformation 1))
        (by rw [String.empty_append, ← String.append_assoc, ← String.append_assoc]; rfl)
    · rw [hsw]
      exact contains_of_eq _ "read access violation at: " _ ""
        (by rw [String.append_empty, ← String.append_assoc, ← String.append_assoc]; rfl)
    · rw [hsw]
      exact contains_of_eq _ "" _ ""
        (by rw [String.append_empty, String.empty_append, ← String.append_assoc]; rfl)
    · intro hc
      have hw : contains (plainText e) "w" := contains_trans _ "write" _ (by decide) hc
      refine not_contains_of_scan_zero "w" _ (by decide) scan_w_self ?_ hw
      refine plainText_scan_zero e _ 'w' [] rfl (by decide) (by decide) (by decide)
        (by decide) (by decide) (by decide) ?_ ?_
      · rw [hsw]
        simp only [String.data_append]
        exact scan_zero_append _ _ _ (by decide) (scan_zero_append _ _ _ (by decide)
          (scan_zero_hex _ 'w' [] rfl (by decide) _))
      · split_ifs <;> decide

theorem formatException_accessViolation_witness :
    contains (plainText (sampleRecord 0xC0000005 0 0x401000 1 0xdeadbeef))
      "write access violation" ∧
    contains (plainText (sampleRecord 0xC0000005 0 0x401000 1 0xdeadbeef))
      ("0x" ++ hex 0xdeadbeef) ∧
    ¬ contains (plainText (sampleRecord 0xC0000005 1 0x401000 0 0xdeadbeef)) "write" :=
  ⟨((formatException_accessViolation (sampleRecord 0xC0000005 0 0x401000 1 0xdeadbeef)
      rfl).1 rfl).1,
    ((formatException_accessViolation (sampleRecord 0xC0000005 0 0x401000 1 0xdeadbeef)
      rfl).1 rfl).2.1,
    ((formatException_accessViolation (sampleRecord 0xC0000005 1 0x401000 0 0xdeadbeef)
      rfl).2.1 rfl).2.2.2⟩

/-! ## EventCallbackRedirector -/

theorem Clients.set_same (cs : Clients) (addr : Nat) (c : CIDebugClient) :
    cs.set addr c addr = c := by
  simp [Clients.set]

theorem getEventCallback_of_succeeded (cs : Clients) (clnt : Nat)
    (hget : SUCCEEDED (cs clnt).getResult = true) :
    CdbDebugEventCallbackBase.getEventCallback cs clnt = (cs clnt).eventCallbacks := by
  simp [CdbDebugEventCallbackBase.getEventCallback, CIDebugClient.GetEventCallbacksWide, hget]

theorem SetEventCallbacksWide_of_succeeded (c : CIDebugClient) (cb : Nat)
    (hset : SUCCEEDED c.setResult = true) :
    (c.SetEventCallbacksWide cb).2 = { c with eventCallbacks := cb } := by
  simp [CIDebugClient.SetEventCallbacksWide, hset]

/-- C4: on a client `H` whose query and install calls succeed and on which `A`
is installed, constructing a redirector for `B` installs `B` and remembers
`A`, and destroying it installs `A` again; a second redirector for `C`
constructed inside the first installs `C` and remembers `B`, destroying the
inner one leaves `B` installed and destroying the outer one after it leaves
`A` installed. -/
theorem redirector_nested_restore (cs : Clients) (H A B C : Nat)
    (hget : SUCCEEDED (cs H).getResult = true) (hset : SUCCEEDED (cs H).setResult = true)
    (hA : (cs H).eventCallbacks = A) :
    ((EventCallbackRedirector.new cs H B).2 H).eventCallbacks = B ∧
    (EventCallbackRedirector.new cs H B).1.m_oldCb = A ∧
    (((EventCallbackRedirector.new cs H B).1.delete
      (EventCallbackRedirector.new cs H B).2) H).eventCallbacks = A ∧
    ((EventCallbackRedirector.new (EventCallbackRedirector.new cs H B).2 H C).2 H).eventCallbacks
      = C ∧
    (EventCallbackRedirector.new (EventCallbackRedirector.new cs H B).2 H C).1.m_oldCb = B ∧
    (((EventCallbackRedirector.new (EventCallbackRedirector.new cs H B).2 H C).1.delete
      (EventCallbackRedirector.new (EventCallbackRedirector.new cs H B).2 H C).2)
        H).eventCallbacks = B ∧
    (((EventCallbackRedirector.new cs H B).1.delete
      ((EventCallbackRedirector.new (EventCallbackRedirector.new cs H B).2 H C).1.delete
        (EventCallbackRedirector.new (EventCallbackRedirector.new cs H B).2 H C).2))
          H).eventCallbacks = A := by
  simp [EventCallbackRedirector.new, EventCallbackRedirector.delete, Clients.set_same,
    getEventCallback_of_succeeded, SetEventCallbacksWide_of_succeeded, hget, hset, hA]

theorem redirector_nested_restore_witness :
    ((EventCallbackRedirector.new (sampleClients 10) 7 20).2 7).eventCallbacks = 20 ∧
    (((EventCallbackRedirector.new (sampleClients 10) 7 20).1.delete
      ((EventCallbackRedirector.new (EventCallbackRedirector.new (sampleClients 10) 7 20).2
        7 30).1.delete
        (EventCallbackRedirector.new (EventCallbackRedirector.new (sampleClients 10) 7 20).2
          7 30).2)) 7).eventCallbacks = 10 :=
  ⟨(redirector_nested_restore (sampleClients 10) 7 10 20 30 rfl rfl rfl).1,
    (redirector_nested_restore (sampleClients 10) 7 10 20 30 rfl rfl rfl).2.2.2.2.2.2⟩

/-! ## The primary handler -/

theorem formatExceptionWithDumper_calls_isDumperCall (e : EXCEPTION_RECORD64)
    (dumper : CdbDumperHelper) (str : QTextStream) :
    ∀ c ∈ (formatExceptionWithDumper e dumper str).2, c.isDumperCall = true := by
  unfold formatExceptionWithDumper
  by_cases hcode : e.ExceptionCode = cppExceptionCode
  · simp only [if_pos hcode]
    cases dumper.create (dumper.GetCurrentThreadId.getD 0) <;>
      simp [Call.isDumperCall]
  · simp [if_neg hcode]

theorem formatExceptionWithDumper_of_ne (e : EXCEPTION_RECORD64) (dumper : CdbDumperHelper)
    (str : QTextStream) (hcode : e.ExceptionCode ≠ cppExceptionCode) :
    formatExceptionWithDumper e dumper str = (formatException e str, []) := by
  unfold formatExceptionWithDumper
  simp only [if_neg hcode]

/-- C5: an exception event makes the primary handler call, in this order,
the dumper (at most), `showApplicationOutput` once with the formatted text,
and `notifyCrashed` once if `isFatalException` holds of the code and not at
all otherwise; the number of crash notifications is the same for any two
events whose records have the same code, whatever the first-chance arguments
and the other fields. -/
theorem Exception_output_then_crash (self : CdbDebugEventCallback) (e : EXCEPTION_RECORD64)
    (FirstChance : Nat) :
    (∃ pre : List Call,
      (∀ c ∈ pre, c.isDumperCall = true) ∧
      (self.Exception e FirstChance).calls =
        pre ++ [Call.showApplicationOutput
            (formatExceptionWithDumper e self.m_pEngine.m_d.m_dumper ⟨"", 0⟩).1.string] ++
          (if isFatalException (toLONG e.ExceptionCode) = true then [Call.notifyCrashed]
            else [])) ∧
    (self.Exception e FirstChance).calls.countP Call.isApplicationOutput = 1 ∧
    (self.Exception e FirstChance).calls.count Call.notifyCrashed =
      (if isFatalException (toLONG e.ExceptionCode) = true then 1 else 0) ∧
    (∀ (self' : CdbDebugEventCallback) (e' : EXCEPTION_RECORD64) (FirstChance' : Nat),
      e'.ExceptionCode = e.ExceptionCode →
      (self'.Exception e' FirstChance').calls.count Call.notifyCrashed =
        (self.Exception e FirstChance).calls.count Call.notifyCrashed) := by
  have hcount : ∀ (s : CdbDebugEventCallback) (r : EXCEPTION_RECORD64) (fc : Nat),
      (s.Exception r fc).calls.count Call.notifyCrashed =
        (if isFatalException (toLONG r.ExceptionCode) = true then 1 else 0) := by
    intro s r fc
    have hpre : (formatExceptionWithDumper r s.m_pEngine.m_d.m_dumper ⟨"", 0⟩).2.count
        Call.notifyCrashed = 0 := by
      apply List.count_eq_zero_of_not_mem
      intro hmem
      have := formatExceptionWithDumper_calls_isDumperCall r s.m_pEngine.m_d.m_dumper ⟨"", 0⟩
        _ hmem
      simp [Call.isDumperCall] at this
    unfold CdbDebugEventCallback.Exception
    simp only [List.count_append, hpre]
    cases isFatalException (toLONG r.ExceptionCode) <;> simp
  refine ⟨⟨(formatExceptionWithDumper e self.m_pEngine.m_d.m_dumper ⟨"", 0⟩).2,
    formatExceptionWithDumper_calls_isDumperCall _ _ _, ?_⟩, ?_, hcount self e FirstChance, ?_⟩
  · unfold CdbDebugEventCallback.Exception
    cases isFatalException (toLONG e.ExceptionCode) <;> simp
  · have hpre : (formatExceptionWithDumper e self.m_pEngine.m_d.m_dumper ⟨"", 0⟩).2.countP
        Call.isApplicationOutput = 0 := by
      rw [List.countP_eq_zero]
      intro c hmem
      have := formatExceptionWithDumper_calls_isDumperCall e self.m_pEngine.m_d.m_dumper ⟨"", 0⟩
        c hmem
      cases c <;> simp_all [Call.isDumperCall, Call.isApplicationOutput]
    unfold CdbDebugEventCallback.Exception
    simp only [List.countP_append, hpre]
    cases isFatalException (toLONG e.ExceptionCode) <;> simp [Call.isApplicationOutput]
  · intro self' e' fc' hcode
    rw [hcount, hcount, hcode]

theorem Exception_output_then_crash_witness :
    ((sampleCallback (some 7) (some "main")).Exception
        (sampleRecord 0xC0000005 0 0x401000 1 0xdeadbeef) 1).calls.count Call.notifyCrashed = 1 ∧
    ((sampleCallback none none).Exception
        (sampleRecord 0x80000003 1 0x401000 0 0) 0).calls.count Call.notifyCrashed =
      ((sampleCallback (some 7) (some "main")).Exception
        (sampleRecord 0x80000003 0 0x402000 5 6) 1).calls.count Call.notifyCrashed :=
  ⟨(Exception_output_then_crash (sampleCallback (some 7) (some "main"))
      (sampleRecord 0xC0000005 0 0x401000 1 0xdeadbeef) 1).2.2.1,
    (Exception_output_then_crash (sampleCallback (some 7) (some "main"))
      (sampleRecord 0x80000003 0 0x402000 5 6) 1).2.2.2 (sampleCallback none none)
      (sampleRecord 0x80000003 1 0x401000 0 0) 0 rfl⟩

/-- C6: delivering ProcessCreate, ModuleLoad with a module name, an Exception
whose record has the breakpoint code, and ProcessExit, in this order, makes
the primary handler call exactly: process-attached with the process and
initial-thread handles, module-loaded with the name, the application output
with the formatted breakpoint text, and process-terminated with the exit code;
`notifyCrashed` is not called. -/
theorem deliverAll_session (self : CdbDebugEventCallback)
    (ImageFileHandle Handle BaseOffset ModuleSize : Nat) (ModuleName ImageName : Option String)
    (CheckSum TimeDateStamp InitialThreadHandle ThreadDataOffset StartOffset : Nat)
    (ImageFileHandle' BaseOffset' ModuleSize' : Nat) (name : String)
    (ImageName' : Option String) (CheckSum' TimeDateStamp' : Nat)
    (e : EXCEPTION_RECORD64) (FirstChance ExitCode : Nat)
    (hcode : e.ExceptionCode = 0x80000003) :
    self.deliverAll
      [DebugEvent.CreateProcess ImageFileHandle Handle BaseOffset ModuleSize ModuleName
          ImageName CheckSum TimeDateStamp InitialThreadHandle ThreadDataOffset StartOffset,
        DebugEvent.LoadModule ImageFileHandle' BaseOffset' ModuleSize' (some name) ImageName'
          CheckSum' TimeDateStamp',
        DebugEvent.Exception e FirstChance,
        DebugEvent.ExitProcess ExitCode] =
      [Call.processCreatedAttached Handle InitialThreadHandle,
        Call.handleModuleLoad name,
        Call.showApplicationOutput (plainText e),
        Call.processTerminated ExitCode] ∧
    Call.notifyCrashed ∉ self.deliverAll
      [DebugEvent.CreateProcess ImageFileHandle Handle BaseOffset ModuleSize ModuleName
          ImageName CheckSum TimeDateStamp InitialThreadHandle ThreadDataOffset StartOffset,
        DebugEvent.LoadModule ImageFileHandle' BaseOffset' ModuleSize' (some name) ImageName'
          CheckSum' TimeDateStamp',
        DebugEvent.Exception e FirstChance,
        DebugEvent.ExitProcess ExitCode] := by
  have hne : e.ExceptionCode ≠ cppExceptionCode := by rw [hcode]; decide
  have hfatal : isFatalException (toLONG e.ExceptionCode) = false := by rw [hcode]; decide
  have hcalls : (self.Exception e FirstChance).calls =
      [Call.showApplicationOutput (plainText e)] := by
    unfold CdbDebugEventCallback.Exception
    rw [formatExceptionWithDumper_of_ne e _ _ hne, hfatal]
    rfl
  have hall : self.deliverAll
      [DebugEvent.CreateProcess ImageFileHandle Handle BaseOffset ModuleSize ModuleName
          ImageName CheckSum TimeDateStamp InitialThreadHandle ThreadDataOffset StartOffset,
        DebugEvent.LoadModule ImageFileHandle' BaseOffset' ModuleSize' (some name) ImageName'
          CheckSum' TimeDateStamp',
        DebugEvent.Exception e FirstChance,
        DebugEvent.ExitProcess ExitCode] =
      [Call.processCreatedAttached Handle InitialThreadHandle,
        Call.handleModuleLoad name,
        Call.showApplicationOutput (plainText e),
        Call.processTerminated ExitCode] := by
    simp only [CdbDebugEventCallback.deliverAll, CdbDebugEventCallback.deliver, hcalls]
    rfl
  refine ⟨hall, ?_⟩
  rw [hall]
  simp

theorem deliverAll_session_witness :
    (sampleCallback (some 1) (some "main")).deliverAll
      [DebugEvent.CreateProcess 3 4 0x400000 4096 (some "app") (some "app.exe") 0 0 5 0 0,
        DebugEvent.LoadModule 3 0x400000 4096 (some "app.exe") (some "app.exe") 0 0,
        DebugEvent.Exception (sampleRecord 0x80000003 0 0x401000 0 0) 1,
        DebugEvent.ExitProcess 0] =
      [Call.processCreatedAttached 4 5,
        Call.handleModuleLoad "app.exe",
        Call.showApplicationOutput (plainText (sampleRecord 0x80000003 0 0x401000 0 0)),
        Call.processTerminated 0] :=
  (deliverAll_session (sampleCallback (some 1) (some "main")) 3 4 0x400000 4096 (some "app")
    (some "app.exe") 0 0 5 0 0 3 0x400000 4096 "app.exe" (some "app.exe") 0 0
    (sampleRecord 0x80000003 0 0x401000 0 0) 1 0 rfl).1

/-! ## Stack-trace augmentation -/

theorem switchText_cppException (e : EXCEPTION_RECORD64)
    (hcode : e.ExceptionCode = cppExceptionCode) : switchText e = "C++ exception" := by
  unfold switchText formatExceptionSwitch
  rw [if_pos hcode]
  rfl

theorem scan_t_colon_self : ∀ k, k ≤ "t:".data.length →
    scan "t:".data k "t:".data = "t:".data.length := by
  intro k hk
  have hk2 : k ≤ 2 := hk
  interval_cases k <;> decide

theorem plainText_ne_empty (e : EXCEPTION_RECORD64) : plainText e ≠ "" := by
  rw [plainText_eq]
  intro h
  have := congrArg String.data h
  simp only [String.data_append] at this
  exact absurd this (by simp)

/-- C7: for a record with the C++ exception code `0xe06d7363`, when creating
the stack-trace context for the current thread fails, the augmenting
`formatException` writes exactly what the plain one writes: a non-empty text
that starts with the header, contains `C++ exception` and contains no `at:`. -/
theorem formatExceptionWithDumper_trace_failure (e : EXCEPTION_RECORD64)
    (dumper : CdbDumperHelper) (hcode : e.ExceptionCode = 0xe06d7363)
    (hfail : dumper.create (dumper.GetCurrentThreadId.getD 0) = none) :
    (formatExceptionWithDumper e dumper ⟨"", 0⟩).1 = formatException e ⟨"", 0⟩ ∧
    (formatExceptionWithDumper e dumper ⟨"", 0⟩).1.string = plainText e ∧
    plainText e ≠ "" ∧
    plainText e =
      "\nException at 0x" ++ hex e.ExceptionAddress ++ ", code: 0x" ++ hex 0xe06d7363 ++
        ": C++ exception, flags=0x" ++ hex e.ExceptionFlags ++
        (if e.ExceptionFlags = 1 then " (execution cannot be continued)" else "") ++ "\n\n" ∧
    contains (plainText e) ("\nException at 0x" ++ hex e.ExceptionAddress) ∧
    contains (plainText e) "C++ exception" ∧
    ¬ contains (plainText e) "at:" := by
  have hcode' : e.ExceptionCode = cppExceptionCode := hcode
  have hstream : (formatExceptionWithDumper e dumper ⟨"", 0⟩).1 = formatException e ⟨"", 0⟩ := by
    unfold formatExceptionWithDumper
    simp only [if_pos hcode', hfail]
  have hsw := switchText_cppException e hcode'
  refine ⟨hstream, by rw [hstream]; rfl, plainText_ne_empty e, ?_, ?_, ?_, ?_⟩
  · rw [plainText_eq, hsw, hcode]
    have : (": " ++ ("C++ exception" ++ ", flags=0x")) = ": C++ exception, flags=0x" := by decide
    simp only [String.append_assoc, EXCEPTION_NONCONTINUABLE]
    rw [← String.append_assoc ": " "C++ exception", ← String.append_assoc (": " ++ _),
      String.append_assoc ": ", this]
  · rw [plainText_eq]
    unfold contains
    simp only [String.data_append]
    exact ⟨[], _, by rw [List.nil_append, List.append_assoc]⟩
  · exact contains_switchText e _ (by rw [hsw]; decide)
  · intro hc
    have ht : contains (plainText e) "t:" := contains_trans _ "at:" _ (by decide) hc
    refine not_contains_of_scan_zero "t:" _ (by decide) scan_t_colon_self ?_ ht
    refine plainText_scan_zero e _ 't' ":".data rfl (by decide) (by decide) (by decide)
      (by decide) (by decide) (by decide) ?_ ?_
    · rw [hsw]; decide
    · split_ifs <;> decide

theorem formatExceptionWithDumper_trace_failure_witness :
    (formatExceptionWithDumper (sampleRecord 0xe06d7363 1 0x401000 0 0)
      (sampleCallback (some 7) none).m_pEngine.m_d.m_dumper ⟨"", 0⟩).1.string =
        plainText (sampleRecord 0xe06d7363 1 0x401000 0 0) ∧
    contains (plainText (sampleRecord 0xe06d7363 1 0x401000 0 0)) "C++ exception" ∧
    ¬ contains (plainText (sampleRecord 0xe06d7363 1 0x401000 0 0)) "at:" :=
  ⟨(formatExceptionWithDumper_trace_failure (sampleRecord 0xe06d7363 1 0x401000 0 0)
      (sampleCallback (some 7) none).m_pEngine.m_d.m_dumper rfl rfl).2.1,
    (formatExceptionWithDumper_trace_failure (sampleRecord 0xe06d7363 1 0x401000 0 0)
      (sampleCallback (some 7) none).m_pEngine.m_d.m_dumper rfl rfl).2.2.2.2.2.1,
    (formatExceptionWithDumper_trace_failure (sampleRecord 0xe06d7363 1 0x401000 0 0)
      (sampleCallback (some 7) none).m_pEngine.m_d.m_dumper rfl rfl).2.2.2.2.2.2⟩

/-! ## The logging handler -/

/-- C8: the logging handler declares exactly the Exception bit, so that an
event is in its mask precisely when it is an Exception event; and an event
that is not an Exception event, ThreadCreate among them, leaves the handler
(prefix and message log) as it was and makes no call. -/
theorem logger_mask_and_frame (self : CdbExceptionLoggerEventCallback) (ev : DebugEvent)
    (hev : ev.isException = false) :
    CdbExceptionLoggerEventCallback.GetInterestMask = DEBUG_EVENT_EXCEPTION ∧
    (∀ ev' : DebugEvent,
      CdbExceptionLoggerEventCallback.GetInterestMask &&& ev'.bit ≠ 0 ↔
        ev'.isException = true) ∧
    self.deliver ev = (self, ⟨[], S_OK⟩) ∧
    (self.deliver ev).1.m_exceptionMessages = self.m_exceptionMessages ∧
    (∀ Handle DataOffset StartOffset : Nat,
      self.deliver (DebugEvent.CreateThread Handle DataOffset StartOffset) =
        (self, ⟨[], S_OK⟩)) := by
  have hframe : self.deliver ev = (self, ⟨[], S_OK⟩) := by
    cases ev <;> first | rfl | simp [DebugEvent.isException] at hev
  refine ⟨rfl, ?_, hframe, by rw [hframe], fun _ _ _ => rfl⟩
  intro ev'
  cases ev' <;> simp only [DebugEvent.isException, DebugEvent.bit] <;> decide

theorem logger_mask_and_frame_witness :
    (CdbExceptionLoggerEventCallback.mk "dumper" ["earlier"]).deliver
        (DebugEvent.CreateThread 1 2 3) =
      (CdbExceptionLoggerEventCallback.mk "dumper" ["earlier"], ⟨[], S_OK⟩) :=
  (logger_mask_and_frame (CdbExceptionLoggerEventCallback.mk "dumper" ["earlier"])
    (DebugEvent.CreateThread 1 2 3) rfl).2.2.1

theorem logger_deliverAll_exceptions (rs : List (EXCEPTION_RECORD64 × Nat)) :
    ∀ self : CdbExceptionLoggerEventCallback,
      self.deliverAll (rs.map fun r => DebugEvent.Exception r.1 r.2) =
        (⟨self.m_logPrefix, self.m_exceptionMessages ++ rs.map fun r => plainText r.1⟩,
          rs.map fun r => Call.showDebuggerOutput self.m_logPrefix (plainText r.1)) := by
  induction rs with
  | nil => intro self; simp [CdbExceptionLoggerEventCallback.deliverAll]
  | cons r rs ih =>
    intro self
    simp only [List.map_cons, CdbExceptionLoggerEventCallback.deliverAll,
      CdbExceptionLoggerEventCallback.deliver, CdbExceptionLoggerEventCallback.Exception, ih,
      plainText, List.append_assoc, List.singleton_append]

/-- C9: after exception records `r1 .. rn` are delivered to a logging handler
with prefix `p`, its message log is the previous log followed by the plain
texts of `r1 .. rn` in order (for the C++ exception code too), the prefix is
unchanged, and the calls made are exactly `showDebuggerOutput p text` for
these texts in the same order: no thread-list, module-list, crash or
application-output call. A handler constructed with log prefix `logPrefix`
has this prefix and an empty log, so that after the deliveries its log is the
list of the texts and every text was forwarded together with `logPrefix`. -/
theorem logger_log_and_forward (self : CdbExceptionLoggerEventCallback)
    (rs : List (EXCEPTION_RECORD64 × Nat)) (logPrefix : String) :
    (self.deliverAll (rs.map fun r => DebugEvent.Exception r.1 r.2)).1.m_exceptionMessages =
      self.m_exceptionMessages ++ rs.map (fun r => plainText r.1) ∧
    (self.deliverAll (rs.map fun r => DebugEvent.Exception r.1 r.2)).1.m_logPrefix =
      self.m_logPrefix ∧
    (self.deliverAll (rs.map fun r => DebugEvent.Exception r.1 r.2)).2 =
      rs.map (fun r => Call.showDebuggerOutput self.m_logPrefix (plainText r.1)) ∧
    Call.updateThreadList ∉ (self.deliverAll (rs.map fun r => DebugEvent.Exception r.1 r.2)).2 ∧
    Call.updateModules ∉ (self.deliverAll (rs.map fun r => DebugEvent.Exception r.1 r.2)).2 ∧
    Call.notifyCrashed ∉ (self.deliverAll (rs.map fun r => DebugEvent.Exception r.1 r.2)).2 ∧
    (∀ c ∈ (self.deliverAll (rs.map fun r => DebugEvent.Exception r.1 r.2)).2,
      c.isDumperCall = false) ∧
    ((CdbExceptionLoggerEventCallback.new "p").deliverAll
      [DebugEvent.Exception (sampleRecord 0xe06d7363 0 0x401000 0 0) 1]).1.m_exceptionMessages =
        ["\nException at 0x401000, code: 0xe06d7363: C++ exception, flags=0x0\n\n"] ∧
    (CdbExceptionLoggerEventCallback.new logPrefix).m_logPrefix = logPrefix ∧
    (CdbExceptionLoggerEventCallback.new logPrefix).m_exceptionMessages = [] ∧
    ((CdbExceptionLoggerEventCallback.new logPrefix).deliverAll
      (rs.map fun r => DebugEvent.Exception r.1 r.2)).2 =
        rs.map (fun r => Call.showDebuggerOutput logPrefix (plainText r.1)) ∧
    ((CdbExceptionLoggerEventCallback.new logPrefix).deliverAll
      (rs.map fun r => DebugEvent.Exception r.1 r.2)).1 =
        ⟨logPrefix, rs.map (fun r => plainText r.1)⟩ := by
  rw [logger_deliverAll_exceptions, logger_deliverAll_exceptions]
  refine ⟨rfl, rfl, rfl, by simp, by simp, by simp, ?_, by decide, rfl, rfl, rfl, ?_⟩
  · intro c hc
    obtain ⟨r, _, rfl⟩ := List.mem_map.mp hc
    rfl
  · simp [CdbExceptionLoggerEventCallback.new]

theorem logger_log_and_forward_witness :
    ((CdbExceptionLoggerEventCallback.mk "p" ["earlier"]).deliverAll
      ([(sampleRecord 0xe06d7363 0 0x401000 0 0, 1), (sampleRecord 0x6ba 0 0x402000 0 0, 0)].map
        fun r => DebugEvent.Exception r.1 r.2)).2 =
      [(sampleRecord 0xe06d7363 0 0x401000 0 0, 1), (sampleRecord 0x6ba 0 0x402000 0 0, 0)].map
        (fun r => Call.showDebuggerOutput "p" (plainText r.1)) :=
  (logger_log_and_forward (CdbExceptionLoggerEventCallback.mk "p" ["earlier"])
    [(sampleRecord 0xe06d7363 0 0x401000 0 0, 1), (sampleRecord 0x6ba 0 0x402000 0 0, 0)]
    "dumper").2.2.1

/-! ## The layout of the text and the phrase table -/

theorem lookup_cons_getD (c k : Nat) (v d : String) (t : List (Nat × String)) :
    (List.lookup c ((k, v) :: t)).getD d = if c = k then v else (List.lookup c t).getD d := by
  by_cases h : c = k
  · subst h; simp [List.lookup]
  · have hb : (c == k) = false := by simpa using h
    simp [List.lookup, hb, h]

theorem lookup_getD_of_not_mem (c : Nat) (d : String) (t : List (Nat × String))
    (h : c ∉ t.map Prod.fst) : (List.lookup c t).getD d = d := by
  induction t with
  | nil => rfl
  | cons kv t ih =>
    obtain ⟨k, v⟩ := kv
    have hk : c ≠ k := fun hck => h (by simp [hck])
    have ht : c ∉ t.map Prod.fst := fun hm => h (by simp [hm])
    rw [lookup_cons_getD, if_neg hk, ih ht]

theorem ite_string_eq (c : Prop) [Decidable c] (a b : QTextStream) (x y : String)
    (ha : a.string = x) (hb : b.string = y) :
    (if c then a else b).string = if c then x else y := by
  split_ifs
  · exact ha
  · exact hb

theorem switchText_static (e : EXCEPTION_RECORD64)
    (hcode : e.ExceptionCode ≠ EXCEPTION_ACCESS_VIOLATION) :
    switchText e = staticPhrase e.ExceptionCode := by
  unfold switchText formatExceptionSwitch staticPhrase phraseTable
  rw [if_neg hcode]
  simp only [lookup_cons_getD, List.lookup_nil, Option.getD_none]
  repeat' apply ite_string_eq
  all_goals rfl

theorem switchText_accessViolationPhrase (e : EXCEPTION_RECORD64)
    (hcode : e.ExceptionCode = EXCEPTION_ACCESS_VIOLATION) :
    switchText e = accessViolationPhrase e := by
  rw [switchText_accessViolation e hcode]
  unfold accessViolationPhrase
  by_cases h0 : e.ExceptionInformation 0 = 0
  · simp only [h0, if_pos, String.append_assoc]
    rfl
  · have hb : (e.ExceptionInformation 0 != 0) = true := by simpa using h0
    simp only [hb, if_pos, if_neg h0, String.append_assoc]

/-- C10, as stated, fails: no assignment of one phrase to each exception code
fits the texts of all records, whatever note is allowed after the flags. Two
access-violation records that differ only in their first parameter get
different texts. -/
theorem formatException_phrase_not_by_code :
    ¬ ∃ phrase : Nat → String, ∀ e : EXCEPTION_RECORD64, ∃ note : String,
      plainText e = describedText e (phrase e.ExceptionCode) note := by
  rintro ⟨phrase, h⟩
  obtain ⟨n₁, h₁⟩ := h (sampleRecord 0xC0000005 0 0 0 0)
  obtain ⟨n₂, h₂⟩ := h (sampleRecord 0xC0000005 0 0 1 0)
  have t₁ : plainText (sampleRecord 0xC0000005 0 0 0 0) =
      "\nException at 0x0, code: 0xc0000005: " ++
        "read access violation at: 0x0, flags=0x0\n\n" := by decide
  have t₂ : plainText (sampleRecord 0xC0000005 0 0 1 0) =
      "\nException at 0x0, code: 0xc0000005: " ++
        "write access violation at: 0x0, flags=0x0\n\n" := by decide
  have d : ∀ (r : EXCEPTION_RECORD64) (note : String), r.ExceptionCode = 0xC0000005 →
      r.ExceptionAddress = 0 → r.ExceptionFlags = 0 →
      describedText r (phrase r.ExceptionCode) note =
        "\nException at 0x0, code: 0xc0000005: " ++
          (phrase 0xC0000005 ++ (", flags=0x0" ++ (note ++ "\n\n"))) := by
    intro r note hc ha hf
    unfold describedText
    rw [hc, ha, hf]
    have hh : "\nException at 0x" ++ hex 0 ++ ", code: 0x" ++ hex 0xC0000005 ++ ": " =
        "\nException at 0x0, code: 0xc0000005: " := by decide
    have hfl : ", flags=0x" ++ hex 0 = ", flags=0x0" := by decide
    rw [hh]
    simp only [String.append_assoc]
    rw [← String.append_assoc ", flags=0x" (hex 0), hfl]
  rw [t₁, d _ _ rfl rfl rfl] at h₁
  rw [t₂, d _ _ rfl rfl rfl] at h₂
  have k₁ := List.append_cancel_left (congrArg String.data h₁)
  have k₂ := List.append_cancel_left (congrArg String.data h₂)
  simp only [String.data_append] at k₁ k₂
  cases hp : (phrase 0xC0000005).data with
  | nil =>
    rw [hp] at k₁
    have c₀ := congrArg List.head? k₁
    simp only [List.nil_append, List.cons_append, List.head?_cons] at c₀
    exact absurd c₀ (by decide)
  | cons c t =>
    rw [hp] at k₁ k₂
    have c₁ := congrArg List.head? k₁
    have c₂ := congrArg List.head? k₂
    simp only [List.cons_append, List.head?_cons] at c₁ c₂
    rw [← c₂] at c₁
    exact absurd c₁ (by decide)

/-- C10, amended: the plain text of every record is the header with the
address and the code in hexadecimal, a phrase, the flags in hexadecimal, the
note when the flags equal `EXCEPTION_NONCONTINUABLE`, and two line ends. For
an access violation the phrase is `read` or `write` (first parameter zero or
not) with ` access violation at: 0x` and the second parameter in hexadecimal;
for every other code it is the fixed phrase of the table, which is empty for
a code without entry such as `0x6ba`. -/
theorem formatException_layout (e : EXCEPTION_RECORD64) :
    plainText e =
      describedText e
        (if e.ExceptionCode = 0xC0000005 then accessViolationPhrase e
          else staticPhrase e.ExceptionCode)
        (if e.ExceptionFlags = 0x1 then " (execution cannot be continued)" else "") ∧
    staticPhrase 0xC0000094 = "integer division by zero" ∧
    staticPhrase 0xC0000095 = "integer overflow" ∧
    staticPhrase 0x80000002 = "datatype misalignment" ∧
    staticPhrase 0xC00000FD = "stack_overflow" ∧
    staticPhrase 0xC000001D = "invalid instruction" ∧
    staticPhrase 0xe06d7363 = "C++ exception" ∧
    staticPhrase 0x6ba = "" ∧
    (∀ c : Nat, c ∉ phraseTable.map Prod.fst → staticPhrase c = "") ∧
    (∀ n : Nat, hexValue (hex n).data = n ∧ ∀ c ∈ (hex n).data, c ∈ "0123456789abcdef".data) := by
  refine ⟨?_, by decide, by decide, by decide, by decide, by decide, by decide, by decide,
    fun c hc => lookup_getD_of_not_mem c "" phraseTable hc,
    fun n => ⟨hexValue_hex n, hex_mem_hexDigits n⟩⟩
  have hsw : switchText e = (if e.ExceptionCode = 0xC0000005 then accessViolationPhrase e
      else staticPhrase e.ExceptionCode) := by
    by_cases hcode : e.ExceptionCode = 0xC0000005
    · rw [if_pos hcode]; exact switchText_accessViolationPhrase e hcode
    · rw [if_neg hcode]; exact switchText_static e hcode
  rw [plainText_eq, hsw]
  unfold describedText
  simp only [String.append_assoc, EXCEPTION_NONCONTINUABLE]

theorem formatException_layout_witness :
    staticPhrase 0x6bb = "" :=
  (formatException_layout (sampleRecord 0x6bb 0 0 0 0)).2.2.2.2.2.2.2.2.1 0x6bb (by decide)

/-! ## Failing client calls -/

theorem getEventCallback_of_failed (cs : Clients) (clnt : Nat)
    (hget : SUCCEEDED (cs clnt).getResult = false) :
    CdbDebugEventCallbackBase.getEventCallback cs clnt = 0 := by
  simp [CdbDebugEventCallbackBase.getEventCallback, CIDebugClient.GetEventCallbacksWide, hget]

/-- C11, as stated, fails: nothing the constructor hands to its caller tells
whether a client call failed. No observation of the constructed redirector is
true exactly for the clients whose query or install reports failure. -/
theorem redirector_failure_not_reported :
    ¬ ∃ report : EventCallbackRedirector → Bool,
      ∀ (cs : Clients) (client cb : Nat),
        report (EventCallbackRedirector.new cs client cb).1 = true ↔
          (SUCCEEDED (cs client).getResult = false ∨ SUCCEEDED (cs client).setResult = false) := by
  rintro ⟨report, h⟩
  have hfail := (h (clientsWith 10 S_OK E_FAIL) 7 20).mpr (Or.inr (by decide))
  have hok := h (clientsWith 10 S_OK S_OK) 7 20
  have hsame : (EventCallbackRedirector.new (clientsWith 10 S_OK E_FAIL) 7 20).1 =
      (EventCallbackRedirector.new (clientsWith 10 S_OK S_OK) 7 20).1 := by decide
  rw [hsame] at hfail
  have := hok.mp hfail
  revert this
  decide

/-- C11, amended: the redirector discards the results of the client calls.
The constructed object is the client address with the installed handler when
the query succeeds and with null when it fails (as for a client without
handler whose query succeeds); it is the same whatever the install reports and
whatever a failing install leaves installed; constructor and destructor do
nothing but the one install call on their client, and hand no result code to
the caller. -/
theorem redirector_discards_failure (cs : Clients) (client cb : Nat) :
    (EventCallbackRedirector.new cs client cb).1 =
      ⟨client, if SUCCEEDED (cs client).getResult = true then (cs client).eventCallbacks else 0⟩ ∧
    (∀ (hr : Int) (left : Nat → Nat),
      (EventCallbackRedirector.new
        (cs.set client { cs client with setResult := hr, afterFailedSet := left }) client cb).1
        = (EventCallbackRedirector.new cs client cb).1) ∧
    (EventCallbackRedirector.new cs client cb).2 =
      cs.set client ((cs client).SetEventCallbacksWide cb).2 ∧
    (∀ r : EventCallbackRedirector,
      r.delete cs = cs.set r.m_client ((cs r.m_client).SetEventCallbacksWide r.m_oldCb).2) := by
  refine ⟨?_, fun hr left => ?_, rfl, fun r => rfl⟩
  · by_cases hget : SUCCEEDED (cs client).getResult = true
    · simp [EventCallbackRedirector.new, getEventCallback_of_succeeded cs client hget, hget]
    · have hget' : SUCCEEDED (cs client).getResult = false := by simpa using hget
      simp [EventCallbackRedirector.new, getEventCallback_of_failed cs client hget', hget']
  · simp [EventCallbackRedirector.new, CdbDebugEventCallbackBase.getEventCallback,
      CIDebugClient.GetEventCallbacksWide, Clients.set_same]

theorem redirector_discards_failure_witness :
    (EventCallbackRedirector.new (clientsWith 10 S_OK E_FAIL) 7 20).1 = ⟨7, 10⟩ ∧
    (EventCallbackRedirector.new (clientsWith 10 E_FAIL S_OK) 7 20).1 = ⟨7, 0⟩ ∧
    (EventCallbackRedirector.new
      ((clientsWith 10 S_OK S_OK).set 7
        { clientsWith 10 S_OK S_OK 7 with setResult := E_FAIL, afterFailedSet := fun _ => 0 })
      7 20).1 = (EventCallbackRedirector.new (clientsWith 10 S_OK S_OK) 7 20).1 :=
  ⟨(redirector_discards_failure (clientsWith 10 S_OK E_FAIL) 7 20).1,
    (redirector_discards_failure (clientsWith 10 E_FAIL S_OK) 7 20).1,
    (redirector_discards_failure (clientsWith 10 S_OK S_OK) 7 20).2.1 E_FAIL (fun _ => 0)⟩

/-! ## Interest masks and events outside them -/

theorem primary_mask_and_bit (ev : DebugEvent) :
    (CdbDebugEventCallback.GetInterestMask &&& ev.bit = 0 ↔ ev.inPrimarySet = false) ∧
    (CdbDebugEventCallback.GetInterestMask &&& ev.bit = ev.bit ↔ ev.inPrimarySet = true) := by
  cases ev <;> simp only [DebugEvent.inPrimarySet, DebugEvent.bit] <;> decide

theorem primary_deliver_outside (self : CdbDebugEventCallback) (ev : DebugEvent)
    (hev : ev.inPrimarySet = false) : self.deliver ev = ⟨[], S_OK⟩ := by
  cases ev <;> first | rfl | simp [DebugEvent.inPrimarySet] at hev

theorem logger_deliver_outside (self : CdbExceptionLoggerEventCallback) (ev : DebugEvent)
    (hev : ev.isException = false) : self.deliver ev = (self, ⟨[], S_OK⟩) := by
  cases ev <;> first | rfl | simp [DebugEvent.isException] at hev

theorem logger_mask_and_bit (ev : DebugEvent) :
    CdbExceptionLoggerEventCallback.GetInterestMask &&& ev.bit = 0 ↔ ev.isException = false := by
  cases ev <;> simp only [DebugEvent.isException, DebugEvent.bit] <;> decide

theorem base_deliver (ev : DebugEvent) : CdbDebugEventCallbackBase.deliver ev = ⟨[], S_OK⟩ := by
  cases ev <;> rfl

/-- C12, as stated, fails: SystemError and SessionStatus have no bit in the
mask of the primary handler, and when one is delivered the handler makes no
call and returns `S_OK`. -/
theorem primary_outside_mask_handled :
    CdbDebugEventCallback.GetInterestMask &&& (DebugEvent.SystemError 1 2).bit = 0 ∧
    (sampleCallback (some 7) (some "main")).deliver (DebugEvent.SystemError 1 2) = ⟨[], S_OK⟩ ∧
    CdbDebugEventCallback.GetInterestMask &&& (DebugEvent.SessionStatus 3).bit = 0 ∧
    (sampleCallback (some 7) (some "main")).deliver (DebugEvent.SessionStatus 3) = ⟨[], S_OK⟩ := by
  decide

/-- C12, amended: an event whose bit is not in the declared mask of a handler,
if delivered anyway, is reported as handled without effect: the primary
handler, the logging handler and the suppressor make no call, keep their
state and return `S_OK`. -/
theorem outside_mask_handled_silently (ev : DebugEvent) :
    (CdbDebugEventCallback.GetInterestMask &&& ev.bit = 0 →
      ∀ self : CdbDebugEventCallback, self.deliver ev = ⟨[], S_OK⟩) ∧
    (CdbExceptionLoggerEventCallback.GetInterestMask &&& ev.bit = 0 →
      ∀ self : CdbExceptionLoggerEventCallback, self.deliver ev = (self, ⟨[], S_OK⟩)) ∧
    (IgnoreDebugEventCallback.GetInterestMask &&& ev.bit = 0 →
      IgnoreDebugEventCallback.deliver ev = ⟨[], S_OK⟩) :=
  ⟨fun h self => primary_deliver_outside self ev ((primary_mask_and_bit ev).1.mp h),
    fun h self => logger_deliver_outside self ev ((logger_mask_and_bit ev).mp h),
    fun _ => base_deliver ev⟩

theorem outside_mask_handled_silently_witness :
    (sampleCallback none none).deliver (DebugEvent.ChangeEngineState 1 2) = ⟨[], S_OK⟩ ∧
    (CdbExceptionLoggerEventCallback.mk "p" ["earlier"]).deliver (DebugEvent.ExitThread 0) =
      (CdbExceptionLoggerEventCallback.mk "p" ["earlier"], ⟨[], S_OK⟩) :=
  ⟨(outside_mask_handled_silently (DebugEvent.ChangeEngineState 1 2)).1 (by decide)
      (sampleCallback none none),
    (outside_mask_handled_silently (DebugEvent.ExitThread 0)).2.1 (by decide)
      (CdbExceptionLoggerEventCallback.mk "p" ["earlier"])⟩

/-- C13: the mask of the primary handler has exactly the bits of process
create, process exit, module load, module unload, thread create, thread exit,
breakpoint and exception: it is `0xff`, bit `i` is set exactly for `i < 8`,
the bit of an event is in the mask exactly for these eight kinds, and the bits
of system error, session status and the three state changes are not in it. -/
theorem primary_interest_mask :
    CdbDebugEventCallback.GetInterestMask = 0xff ∧
    (∀ i : Nat, CdbDebugEventCallback.GetInterestMask.testBit i = decide (i < 8)) ∧
    (∀ ev : DebugEvent,
      (CdbDebugEventCallback.GetInterestMask &&& ev.bit = ev.bit ↔ ev.inPrimarySet = true) ∧
      (CdbDebugEventCallback.GetInterestMask &&& ev.bit = 0 ↔ ev.inPrimarySet = false)) ∧
    CdbDebugEventCallback.GetInterestMask &&& DEBUG_EVENT_CREATE_PROCESS ≠ 0 ∧
    CdbDebugEventCallback.GetInterestMask &&& DEBUG_EVENT_EXIT_PROCESS ≠ 0 ∧
    CdbDebugEventCallback.GetInterestMask &&& DEBUG_EVENT_LOAD_MODULE ≠ 0 ∧
    CdbDebugEventCallback.GetInterestMask &&& DEBUG_EVENT_UNLOAD_MODULE ≠ 0 ∧
    CdbDebugEventCallback.GetInterestMask &&& DEBUG_EVENT_CREATE_THREAD ≠ 0 ∧
    CdbDebugEventCallback.GetInterestMask &&& DEBUG_EVENT_EXIT_THREAD ≠ 0 ∧
    CdbDebugEventCallback.GetInterestMask &&& DEBUG_EVENT_BREAKPOINT ≠ 0 ∧
    CdbDebugEventCallback.GetInterestMask &&& DEBUG_EVENT_EXCEPTION ≠ 0 ∧
    CdbDebugEventCallback.GetInterestMask &&& DEBUG_EVENT_SYSTEM_ERROR = 0 ∧
    CdbDebugEventCallback.GetInterestMask &&& DEBUG_EVENT_SESSION_STATUS = 0 ∧
    CdbDebugEventCallback.GetInterestMask &&& DEBUG_EVENT_CHANGE_DEBUGGEE_STATE = 0 ∧
    CdbDebugEventCallback.GetInterestMask &&& DEBUG_EVENT_CHANGE_ENGINE_STATE = 0 ∧
    CdbDebugEventCallback.GetInterestMask &&& DEBUG_EVENT_CHANGE_SYMBOL_STATE = 0 := by
  refine ⟨by decide, fun i => ?_, fun ev => ⟨(primary_mask_and_bit ev).2,
    (primary_mask_and_bit ev).1⟩, by decide, by decide, by decide, by decide, by decide,
    by decide, by decide, by decide, by decide, by decide, by decide, by decide, by decide⟩
  have h : CdbDebugEventCallback.GetInterestMask = 2 ^ 8 - 1 := by decide
  rw [h, Nat.testBit_two_pow_sub_one]

/-! ## Results and calls of the handlers, event by event -/

/-- C14: every handler variant, the no-op base, the primary handler, the
logging handler and the suppressor, returns `S_OK` for every event of every
kind with any arguments; `S_OK` is a success code. -/
theorem every_handler_returns_S_OK (ev : DebugEvent) :
    (CdbDebugEventCallbackBase.deliver ev).result = S_OK ∧
    (∀ self : CdbDebugEventCallback, (self.deliver ev).result = S_OK) ∧
    (∀ self : CdbExceptionLoggerEventCallback, (self.deliver ev).2.result = S_OK) ∧
    (IgnoreDebugEventCallback.deliver ev).result = S_OK ∧
    SUCCEEDED S_OK = true := by
  refine ⟨by rw [base_deliver], fun self => ?_, fun self => ?_, ?_, by decide⟩
  · cases ev <;> rfl
  · cases ev <;> rfl
  · unfold IgnoreDebugEventCallback.deliver
    rw [base_deliver]

/-- C15: the primary handler answers a Breakpoint event with exactly one call
of the breakpoint sink with the breakpoint it received, a ProcessCreate event
with exactly one process-attached call with the process handle (the second
argument) and the initial-thread handle, and a ProcessExit event with exactly
one process-terminated call with the exit code; no other call is made. -/
theorem primary_breakpoint_and_process (self : CdbDebugEventCallback) (Bp : Nat)
    (ImageFileHandle Handle BaseOffset ModuleSize : Nat) (ModuleName ImageName : Option String)
    (CheckSum TimeDateStamp InitialThreadHandle ThreadDataOffset StartOffset ExitCode : Nat) :
    (self.deliver (DebugEvent.Breakpoint Bp)).calls = [Call.handleBreakpointEvent Bp] ∧
    (self.deliver (DebugEvent.CreateProcess ImageFileHandle Handle BaseOffset ModuleSize
        ModuleName ImageName CheckSum TimeDateStamp InitialThreadHandle ThreadDataOffset
        StartOffset)).calls = [Call.processCreatedAttached Handle InitialThreadHandle] ∧
    (self.deliver (DebugEvent.ExitProcess ExitCode)).calls = [Call.processTerminated ExitCode] ∧
    (self.deliver (DebugEvent.CreateProcess 1 2 3 4 none none 5 6 7 8 9)).calls =
      [Call.processCreatedAttached 2 7] :=
  ⟨rfl, rfl, rfl, rfl⟩

/-- C16: the primary handler answers every ThreadCreate and every ThreadExit
event with exactly one thread-list refresh and every ModuleUnload event with
exactly one module-list refresh, whatever the arguments; no output is pushed
and no crash is notified. -/
theorem primary_thread_and_unload (self : CdbDebugEventCallback)
    (Handle DataOffset StartOffset ExitCode BaseOffset : Nat) (ImageBaseName : Option String) :
    (self.deliver (DebugEvent.CreateThread Handle DataOffset StartOffset)).calls =
      [Call.updateThreadList] ∧
    (self.deliver (DebugEvent.ExitThread ExitCode)).calls = [Call.updateThreadList] ∧
    (self.deliver (DebugEvent.UnloadModule ImageBaseName BaseOffset)).calls =
      [Call.updateModules] ∧
    Call.notifyCrashed ∉
      (self.deliver (DebugEvent.CreateThread Handle DataOffset StartOffset)).calls ++
      (self.deliver (DebugEvent.ExitThread ExitCode)).calls ++
      (self.deliver (DebugEvent.UnloadModule ImageBaseName BaseOffset)).calls ∧
    (∀ c ∈
      (self.deliver (DebugEvent.CreateThread Handle DataOffset StartOffset)).calls ++
      (self.deliver (DebugEvent.ExitThread ExitCode)).calls ++
      (self.deliver (DebugEvent.UnloadModule ImageBaseName BaseOffset)).calls,
      c.isApplicationOutput = false) := by
  refine ⟨rfl, rfl, rfl, ?_, ?_⟩
  · simp [CdbDebugEventCallback.deliver, CdbDebugEventCallback.CreateThread,
      CdbDebugEventCallback.ExitThread, CdbDebugEventCallback.UnloadModule]
  · simp [CdbDebugEventCallback.deliver, CdbDebugEventCallback.CreateThread,
      CdbDebugEventCallback.ExitThread, CdbDebugEventCallback.UnloadModule,
      Call.isApplicationOutput]

/-- C17: the suppressor declares the empty mask `0`, so that no event bit is
in it, and every event delivered to it anyway is answered by the inherited
base method: no call is made and `S_OK` is returned. -/
theorem suppressor_mask_and_frame (ev : DebugEvent) :
    IgnoreDebugEventCallback.GetInterestMask = 0 ∧
    IgnoreDebugEventCallback.GetInterestMask &&& ev.bit = 0 ∧
    IgnoreDebugEventCallback.deliver ev = CdbDebugEventCallbackBase.deliver ev ∧
    IgnoreDebugEventCallback.deliver ev = ⟨[], S_OK⟩ ∧
    (IgnoreDebugEventCallback.deliver ev).calls = [] := by
  have h : IgnoreDebugEventCallback.deliver ev = ⟨[], S_OK⟩ := base_deliver ev
  refine ⟨rfl, ?_, rfl, h, by rw [h]⟩
  simp [IgnoreDebugEventCallback.GetInterestMask]

/-! ## The trace section and the failing query -/

/-- C18: for a record with the C++ exception code, when the session reports
thread id `tid` and the stack-trace context for `tid` is created with formatted
trace `t`, the augmenting `formatException` writes what the plain one writes,
then `at:` and a line end, `t` and a line end, after asking for the current
thread id and for the trace of `tid`; for a record with another code it writes
what the plain one writes and asks for neither. -/
theorem formatExceptionWithDumper_trace (e : EXCEPTION_RECORD64) (dumper : CdbDumperHelper)
    (str : QTextStream) (tid : Nat) (t : String) :
    (e.ExceptionCode = 0xe06d7363 → dumper.GetCurrentThreadId = some tid →
      dumper.create tid = some t →
      (formatExceptionWithDumper e dumper str).1.string =
        (formatException e str).string ++ "at:\n" ++ t ++ "\n" ∧
      (formatExceptionWithDumper e dumper ⟨"", 0⟩).1.string = plainText e ++ "at:\n" ++ t ++ "\n" ∧
      (formatExceptionWithDumper e dumper str).2 =
        [Call.GetCurrentThreadId, Call.createStackTraceContext tid]) ∧
    (e.ExceptionCode ≠ 0xe06d7363 →
      (formatExceptionWithDumper e dumper str).1 = formatException e str ∧
      (formatExceptionWithDumper e dumper ⟨"", 0⟩).1.string = plainText e ∧
      (formatExceptionWithDumper e dumper str).2 = []) := by
  constructor
  · intro hcode htid ht
    have hcode' : e.ExceptionCode = cppExceptionCode := hcode
    have key : ∀ s : QTextStream, formatExceptionWithDumper e dumper s =
        ((((formatException e s).writeString "at:\n").writeString t).writeString "\n",
          [Call.GetCurrentThreadId, Call.createStackTraceContext tid]) := by
      intro s
      unfold formatExceptionWithDumper
      simp only [if_pos hcode', htid, Option.getD_some, ht]
    refine ⟨?_, ?_, ?_⟩
    · rw [key]; rfl
    · rw [key]; rfl
    · rw [key]
  · intro hcode
    have hcode' : e.ExceptionCode ≠ cppExceptionCode := hcode
    refine ⟨?_, ?_, ?_⟩
    · rw [formatExceptionWithDumper_of_ne e dumper str hcode']
    · rw [formatExceptionWithDumper_of_ne e dumper _ hcode']; rfl
    · rw [formatExceptionWithDumper_of_ne e dumper str hcode']

theorem formatExceptionWithDumper_trace_witness :
    (formatExceptionWithDumper (sampleRecord 0xe06d7363 0 0x401000 0 0)
      (sampleCallback (some 7) (some "main()")).m_pEngine.m_d.m_dumper ⟨"", 0⟩).1.string =
        plainText (sampleRecord 0xe06d7363 0 0x401000 0 0) ++ "at:\n" ++ "main()" ++ "\n" ∧
    (formatExceptionWithDumper (sampleRecord 0xe06d7363 0 0x401000 0 0)
      (sampleCallback (some 7) (some "main()")).m_pEngine.m_d.m_dumper ⟨"", 0⟩).2 =
        [Call.GetCurrentThreadId, Call.createStackTraceContext 7] ∧
    (formatExceptionWithDumper (sampleRecord 0xC0000005 0 0x401000 0 0)
      (sampleCallback (some 7) (some "main()")).m_pEngine.m_d.m_dumper ⟨"", 0⟩).2 = [] :=
  ⟨((formatExceptionWithDumper_trace (sampleRecord 0xe06d7363 0 0x401000 0 0)
      (sampleCallback (some 7) (some "main()")).m_pEngine.m_d.m_dumper ⟨"", 0⟩ 7 "main()").1
      rfl rfl rfl).2.1,
    ((formatExceptionWithDumper_trace (sampleRecord 0xe06d7363 0 0x401000 0 0)
      (sampleCallback (some 7) (some "main()")).m_pEngine.m_d.m_dumper ⟨"", 0⟩ 7 "main()").1
      rfl rfl rfl).2.2,
    ((formatExceptionWithDumper_trace (sampleRecord 0xC0000005 0 0x401000 0 0)
      (sampleCallback (some 7) (some "main()")).m_pEngine.m_d.m_dumper ⟨"", 0⟩ 7 "main()").2
      (by decide)).2.2⟩

end Internal
end Debugger

namespace CMakeProjectManager
namespace Internal

/-! ## Matching with backtracking -/

theorem tryLengths_of_some {α : Type} (f : Nat → Option α) (n : Nat) (r : α)
    (h : f n = some r) : tryLengths f n = some r := by
  cases n with
  | zero => simpa [tryLengths] using h
  | succ k => simp [tryLengths, h]

theorem tryLengths_some {α : Type} (f : Nat → Option α) (r : α) :
    ∀ n : Nat, tryLengths f n = some r → ∃ k, k ≤ n ∧ f k = some r := by
  intro n
  induction n with
  | zero => intro h; exact ⟨0, Nat.le_refl 0, by simpa [tryLengths] using h⟩
  | succ k ih =>
    intro h
    unfold tryLengths at h
    cases hf : f (k + 1) with
    | some r' =>
      rw [hf] at h
      exact ⟨k + 1, Nat.le_refl _, by rw [hf]; exact h⟩
    | none =>
      rw [hf] at h
      obtain ⟨j, hj, hfj⟩ := ih h
      exact ⟨j, Nat.le_succ_of_le hj, hfj⟩

theorem drop_length_takeWhile (p : Char → Bool) (s : List Char) :
    s.drop (s.takeWhile p).length = s.dropWhile p := by
  induction s with
  | nil => rfl
  | cons x s ih =>
    cases hx : p x
    · simp [List.takeWhile, List.dropWhile, hx]
    · simpa [List.takeWhile, List.dropWhile, hx] using ih

theorem take_length_takeWhile (p : Char → Bool) (s : List Char) :
    s.take (s.takeWhile p).length = s.takeWhile p := by
  induction s with
  | nil => rfl
  | cons x s ih =>
    cases hx : p x
    · simp [List.takeWhile, hx]
    · simpa [List.takeWhile, hx] using ih

theorem mem_take_of_le_takeWhile (p : Char → Bool) (s : List Char) :
    ∀ k : Nat, k ≤ (s.takeWhile p).length → ∀ c ∈ s.take k, p c = true := by
  induction s with
  | nil => intro k _ c hc; simp at hc
  | cons x s ih =>
    intro k hk c hc
    cases k with
    | zero => simp at hc
    | succ k =>
      cases hx : p x
      · simp [List.takeWhile, hx] at hk
      · simp only [List.takeWhile, hx, List.length_cons, Nat.add_le_add_iff_right] at hk
        rw [List.take_succ_cons] at hc
        rcases List.mem_cons.mp hc with rfl | hc
        · exact hx
        · exact ih k hk c hc

theorem matchItems_lit (c : Char) (items : List Item) (s : List Char) (r : List (List Char))
    (h : matchItems (Item.lit c :: items) s = some r) :
    ∃ rest, s = c :: rest ∧ matchItems items rest = some r := by
  cases s with
  | nil => simp [matchItems] at h
  | cons x rest =>
    by_cases hx : x = c
    · subst hx
      exact ⟨rest, rfl, by simpa [matchItems] using h⟩
    · simp [matchItems, hx] at h

theorem matchItems_lit_cons (c : Char) (items : List Item) (rest : List Char) :
    matchItems (Item.lit c :: items) (c :: rest) = matchItems items rest := by
  simp [matchItems]

/-- A starred class that takes all the characters of its class matches when
the rest of the pattern matches what is left. -/
theorem matchItems_star_max (cls : Char → Bool) (capture : Bool) (items : List Item)
    (s : List Char) (r : List (List Char))
    (h : matchItems items (s.dropWhile cls) = some r) :
    matchItems (Item.star cls capture :: items) s =
      some (if capture then s.takeWhile cls :: r else r) := by
  unfold matchItems
  apply tryLengths_of_some
  simp only [drop_length_takeWhile, take_length_takeWhile, h, Option.map_some']

/-- A match of a starred class splits the text into characters of the class
and a text the rest of the pattern matches. -/
theorem matchItems_star_some (cls : Char → Bool) (capture : Bool) (items : List Item)
    (s : List Char) (caps : List (List Char))
    (h : matchItems (Item.star cls capture :: items) s = some caps) :
    ∃ (k : Nat) (r : List (List Char)), (∀ c ∈ s.take k, cls c = true) ∧
      matchItems items (s.drop k) = some r ∧
      caps = (if capture then s.take k :: r else r) := by
  unfold matchItems at h
  obtain ⟨k, hk, hf⟩ := tryLengths_some _ _ _ h
  cases hm : matchItems items (s.drop k) with
  | none => simp [hm] at hf
  | some r =>
    simp only [hm, Option.map_some', Option.some.injEq] at hf
    exact ⟨k, r, mem_take_of_le_takeWhile cls s k hk, hm, hf.symm⟩

/-! ## The two progress patterns -/

theorem isSpace_of_isDigit (c : Char) (h : isDigit c = true) : isSpace c = false := by
  cases hs : isSpace c
  · rfl
  · exfalso
    simp only [isSpace, Bool.or_eq_true, decide_eq_true_eq] at hs
    rcases hs with ((((rfl | rfl) | rfl) | rfl) | rfl) | rfl <;> revert h <;> decide

theorem dropWhile_isSpace_digits (ds : List Char) (x : Char) (rest : List Char)
    (hds : ∀ c ∈ ds, isDigit c = true) (hx : isSpace x = false) :
    (ds ++ x :: rest).dropWhile isSpace = ds ++ x :: rest := by
  cases ds with
  | nil => simp [List.dropWhile, hx]
  | cons d ds =>
    have hd : isSpace d = false := isSpace_of_isDigit d (hds d (List.mem_cons_self d ds))
    simp [List.dropWhile, hd]

theorem dropWhile_class_then (p : Char → Bool) (a : List Char) (x : Char) (rest : List Char)
    (ha : ∀ c ∈ a, p c = true) (hx : p x = false) :
    (a ++ x :: rest).dropWhile p = x :: rest := by
  rw [List.dropWhile_append_of_pos ha]
  simp [List.dropWhile, hx]

theorem takeWhile_class_then (p : Char → Bool) (a : List Char) (x : Char) (rest : List Char)
    (ha : ∀ c ∈ a, p c = true) (hx : p x = false) :
    (a ++ x :: rest).takeWhile p = a := by
  rw [List.takeWhile_append_of_pos ha]
  simp [List.takeWhile, hx]

/-- A line of the percent shape is matched by `percentProgress`, and the
capture group is its digit group. -/
theorem matchItems_percent_of_line (line ds : List Char) (h : PercentLine line ds) :
    matchItems percentProgress line = some [ds] := by
  obtain ⟨ws, rest, rfl, hws, hds⟩ := h
  have h₃ : matchItems [Item.lit '%', Item.lit ']'] ('%' :: ']' :: rest) = some [] := by
    simp [matchItems]
  have h₂ : matchItems [Item.star isDigit true, Item.lit '%', Item.lit ']']
      (ds ++ '%' :: ']' :: rest) = some [ds] := by
    have := matchItems_star_max isDigit true [Item.lit '%', Item.lit ']']
      (ds ++ '%' :: ']' :: rest) []
      (by rw [dropWhile_class_then isDigit ds '%' _ hds (by decide)]; exact h₃)
    rw [takeWhile_class_then isDigit ds '%' _ hds (by decide)] at this
    simpa using this
  have h₁ := matchItems_star_max isSpace false
    [Item.star isDigit true, Item.lit '%', Item.lit ']'] (ws ++ (ds ++ '%' :: ']' :: rest)) [ds]
    (by rw [List.dropWhile_append_of_pos hws,
          dropWhile_isSpace_digits ds '%' _ hds (by decide)]; exact h₂)
  unfold percentProgress
  rw [matchItems_lit_cons, h₁]
  rfl

/-- Whatever `percentProgress` matches is a line of the percent shape. -/
theorem line_of_matchItems_percent (line : List Char) (caps : List (List Char))
    (h : matchItems percentProgress line = some caps) :
    ∃ ds, PercentLine line ds := by
  unfold percentProgress at h
  obtain ⟨s₁, rfl, h₁⟩ := matchItems_lit _ _ _ _ h
  obtain ⟨k₁, r₁, hws, h₂, -⟩ := matchItems_star_some _ _ _ _ _ h₁
  obtain ⟨k₂, r₂, hds, h₃, -⟩ := matchItems_star_some _ _ _ _ _ h₂
  obtain ⟨t₁, ht₁, h₄⟩ := matchItems_lit _ _ _ _ h₃
  obtain ⟨t₂, ht₂, -⟩ := matchItems_lit _ _ _ _ h₄
  refine ⟨(s₁.drop k₁).take k₂, s₁.take k₁, t₂, ?_, hws, hds⟩
  rw [← ht₂, ← ht₁, List.take_append_drop, List.take_append_drop]

/-- A line of the ninja shape is matched by `ninjaProgress`; the capture groups
are its first digit group and the digits after the whitespace behind the `/`. -/
theorem matchItems_ninja_of_line (line ds tail : List Char) (h : NinjaLine line ds tail) :
    matchItems ninjaProgress line = some [ds, secondGroup tail] := by
  obtain ⟨ws, rfl, hws, hds⟩ := h
  have h₅ : matchItems [Item.star isDigit true] (tail.dropWhile isSpace) =
      some [secondGroup tail] := by
    have := matchItems_star_max isDigit true [] (tail.dropWhile isSpace) [] (by simp [matchItems])
    simpa [secondGroup] using this
  have h₄ : matchItems [Item.star isSpace false, Item.star isDigit true] tail =
      some [secondGroup tail] := by
    have := matchItems_star_max isSpace false [Item.star isDigit true] tail _ h₅
    simpa using this
  have h₃ : matchItems [Item.lit '/', Item.star isSpace false, Item.star isDigit true]
      ('/' :: tail) = some [secondGroup tail] := by
    rw [matchItems_lit_cons, h₄]
  have h₂ : matchItems [Item.star isDigit true, Item.lit '/', Item.star isSpace false,
      Item.star isDigit true] (ds ++ '/' :: tail) = some [ds, secondGroup tail] := by
    have := matchItems_star_max isDigit true
      [Item.lit '/', Item.star isSpace false, Item.star isDigit true] (ds ++ '/' :: tail)
      [secondGroup tail]
      (by rw [dropWhile_class_then isDigit ds '/' _ hds (by decide)]; exact h₃)
    rw [takeWhile_class_then isDigit ds '/' _ hds (by decide)] at this
    simpa using this
  have h₁ := matchItems_star_max isSpace false
    [Item.star isDigit true, Item.lit '/', Item.star isSpace false, Item.star isDigit true]
    (ws ++ (ds ++ '/' :: tail)) [ds, secondGroup tail]
    (by rw [List.dropWhile_append_of_pos hws,
          dropWhile_isSpace_digits ds '/' _ hds (by decide)]; exact h₂)
  unfold ninjaProgress
  rw [matchItems_lit_cons, h₁]
  rfl

/-- Whatever `ninjaProgress` matches is a line of the ninja shape. -/
theorem line_of_matchItems_ninja (line : List Char) (caps : List (List Char))
    (h : matchItems ninjaProgress line = some caps) :
    ∃ ds tail, NinjaLine line ds tail := by
  unfold ninjaProgress at h
  obtain ⟨s₁, rfl, h₁⟩ := matchItems_lit _ _ _ _ h
  obtain ⟨k₁, r₁, hws, h₂, -⟩ := matchItems_star_some _ _ _ _ _ h₁
  obtain ⟨k₂, r₂, hds, h₃, -⟩ := matchItems_star_some _ _ _ _ _ h₂
  obtain ⟨t₁, ht₁, -⟩ := matchItems_lit _ _ _ _ h₃
  refine ⟨(s₁.drop k₁).take k₂, t₁, s₁.take k₁, ?_, hws, hds⟩
  rw [← ht₁, List.take_append_drop, List.take_append_drop]

/-- No line has both shapes: after the first digit group stands `%` or `/`. -/
theorem not_percent_of_ninja (line ds ds' tail : List Char) (hn : NinjaLine line ds tail)
    (hp : PercentLine line ds') : False := by
  obtain ⟨ws, rfl, hws, hds⟩ := hn
  obtain ⟨ws', rest, heq, hws', hds'⟩ := hp
  have h₁ := congrArg (List.dropWhile isSpace) (List.cons.inj heq).2
  rw [List.dropWhile_append_of_pos hws, List.dropWhile_append_of_pos hws',
    dropWhile_isSpace_digits ds '/' _ hds (by decide),
    dropWhile_isSpace_digits ds' '%' _ hds' (by decide)] at h₁
  have h₂ := congrArg (List.dropWhile isDigit) h₁
  rw [dropWhile_class_then isDigit ds '/' _ hds (by decide),
    dropWhile_class_then isDigit ds' '%' _ hds' (by decide)] at h₂
  exact absurd (List.cons.inj h₂).1 (by decide)

theorem matchItems_percent_none_of_ninja (line ds tail : List Char)
    (hn : NinjaLine line ds tail) : matchItems percentProgress line = none := by
  cases hm : matchItems percentProgress line with
  | none => rfl
  | some caps =>
    obtain ⟨ds', hp⟩ := line_of_matchItems_percent line caps hm
    exact (not_percent_of_ninja line ds ds' tail hn hp).elim

/-! ## `handleLine` -/

theorem toInt_digits (ds : List Char) (hds : ∀ c ∈ ds, isDigit c = true) :
    toInt ds =
      if ds ≠ [] ∧ decimalValue ds ≤ INT_MAX then (((decimalValue ds : Nat) : Int), true)
      else ((0 : Int), false) := by
  have hall : ds.all isDigit = true := List.all_eq_true.mpr hds
  unfold toInt
  simp only [hall, true_and]

theorem secondGroup_digits (tail : List Char) : ∀ c ∈ secondGroup tail, isDigit c = true :=
  fun _ hc => List.mem_takeWhile_imp hc

theorem handleLine_of_percent (self : CmakeProgressParser) (line : String) (ds : List Char)
    (h : PercentLine line.data ds) :
    self.handleLine line OutputFormat.StdOutFormat =
      ⟨self, Status.Done, if (toInt ds).2 = true then [some (toInt ds).1] else []⟩ := by
  unfold CmakeProgressParser.handleLine
  rw [matchItems_percent_of_line line.data ds h]
  simp [captured]

theorem handleLine_of_ninja (self : CmakeProgressParser) (line : String) (ds tail : List Char)
    (h : NinjaLine line.data ds tail) :
    self.handleLine line OutputFormat.StdOutFormat =
      ⟨⟨true⟩, Status.Done,
        if (toInt ds).2 = true ∧
            ((toInt (secondGroup tail)).2 && (toInt (secondGroup tail)).1 != 0) = true then
          [percentOfQuotient (toInt ds).1 (toInt (secondGroup tail)).1]
        else []⟩ := by
  unfold CmakeProgressParser.handleLine
  rw [matchItems_percent_none_of_ninja line.data ds tail h,
    matchItems_ninja_of_line line.data ds tail h]
  by_cases h₁ : (toInt ds).2 = true
  · by_cases h₂ : ((toInt (secondGroup tail)).2 && (toInt (secondGroup tail)).1 != 0) = true
    · simp [captured, h₁, h₂]
    · simp [captured, h₁, h₂]
  · simp [captured, h₁]

theorem handleLine_of_neither (self : CmakeProgressParser) (line : String)
    (hp : ∀ ds, ¬ PercentLine line.data ds) (hn : ∀ ds tail, ¬ NinjaLine line.data ds tail) :
    self.handleLine line OutputFormat.StdOutFormat = ⟨self, Status.NotHandled, []⟩ := by
  have h₁ : matchItems percentProgress line.data = none := by
    cases hm : matchItems percentProgress line.data with
    | none => rfl
    | some caps =>
      obtain ⟨ds, hds⟩ := line_of_matchItems_percent _ caps hm
      exact (hp ds hds).elim
  have h₂ : matchItems ninjaProgress line.data = none := by
    cases hm : matchItems ninjaProgress line.data with
    | none => rfl
    | some caps =>
      obtain ⟨ds, tail, hds⟩ := line_of_matchItems_ninja _ caps hm
      exact (hn ds tail hds).elim
  unfold CmakeProgressParser.handleLine
  rw [h₁, h₂]
  simp

theorem percentOfQuotient_natCast (d a : Nat) (h : 100 * d / a ≤ INT_MAX) :
    percentOfQuotient (d : Int) (a : Int) = some ((100 * d / a : Nat) : Int) := by
  have hq : (100 : Int) * (d : Int) / (a : Int) = ((100 * d / a : Nat) : Int) := by
    push_cast
    rfl
  unfold percentOfQuotient
  rw [hq, if_pos (by exact_mod_cast h)]

theorem handleLine_flag_stays (self : CmakeProgressParser) (line : String)
    (format : OutputFormat) (hflag : self.m_useNinja = true) :
    (self.handleLine line format).parser.hasDetectedRedirection = true := by
  unfold CmakeProgressParser.handleLine CmakeProgressParser.hasDetectedRedirection
  by_cases hf : format = OutputFormat.StdOutFormat
  · simp only [hf, ne_eq, not_true_eq_false, if_false]
    cases hp : matchItems percentProgress line.data with
    | some caps => exact hflag
    | none =>
      cases hn : matchItems ninjaProgress line.data with
      | some caps =>
        simp only
        split_ifs <;> rfl
      | none => exact hflag
  · simp only [ne_eq, hf, not_false_eq_true, if_true]
    exact hflag

/-- C20, as stated, fails: the line `[99999999999%]` starts with `[`, the
digits `99999999999` and `%]`, and the line `[%]` with `[`, no digit and `%]`;
on standard output both are `Done`, and for neither a progress is emitted. -/
theorem handleLine_percent_without_progress :
    PercentLine "[99999999999%]".data "99999999999".data ∧
    decimalValue "99999999999".data = 99999999999 ∧
    (CmakeProgressParser.mk false).handleLine "[99999999999%]" OutputFormat.StdOutFormat =
      ⟨⟨false⟩, Status.Done, []⟩ ∧
    PercentLine "[%]".data [] ∧
    (CmakeProgressParser.mk false).handleLine "[%]" OutputFormat.StdOutFormat =
      ⟨⟨false⟩, Status.Done, []⟩ := by
  refine ⟨⟨[], [], rfl, by simp, by decide⟩, by decide, by decide,
    ⟨[], [], rfl, by simp, by simp⟩, by decide⟩

/-- C20, amended: `handleLine` on a line that is not standard output is
`NotHandled`, emits nothing and keeps the flag. On standard output, a line
that starts with `[`, whitespace, digits and `%]` is `Done`, keeps the flag and
emits the number of the digits exactly when there is a digit and the number
is at most `INT_MAX`; a line that starts with `[`, whitespace, digits `D`, `/`,
whitespace and digits `A` is always `Done` and always sets the flag, emits
once when both groups have a digit, both numbers are at most `INT_MAX` and `A`
is not zero, the value being the integer quotient of `100 * D` by `A` when this
is at most `INT_MAX`, and emits nothing when a group is empty or above
`INT_MAX` or `A` is zero; a line of neither shape is `NotHandled`, emits
nothing and keeps the flag; a flag that is set stays set. -/
theorem handleLine_progress (self : CmakeProgressParser) (line : String)
    (format : OutputFormat) :
    (format ≠ OutputFormat.StdOutFormat →
      self.handleLine line format = ⟨self, Status.NotHandled, []⟩) ∧
    (∀ ds : List Char, PercentLine line.data ds →
      self.handleLine line OutputFormat.StdOutFormat =
        ⟨self, Status.Done,
          if ds ≠ [] ∧ decimalValue ds ≤ 2147483647 then [some ((decimalValue ds : Nat) : Int)]
          else []⟩) ∧
    (∀ ds tail : List Char, NinjaLine line.data ds tail →
      (self.handleLine line OutputFormat.StdOutFormat).result = Status.Done ∧
      (self.handleLine line OutputFormat.StdOutFormat).parser = ⟨true⟩ ∧
      (self.handleLine line OutputFormat.StdOutFormat).parser.hasDetectedRedirection = true ∧
      ((self.handleLine line OutputFormat.StdOutFormat).progress.length = 1 ↔
        (ds ≠ [] ∧ decimalValue ds ≤ 2147483647 ∧ secondGroup tail ≠ [] ∧
          decimalValue (secondGroup tail) ≤ 2147483647 ∧ decimalValue (secondGroup tail) ≠ 0)) ∧
      (ds ≠ [] ∧ decimalValue ds ≤ 2147483647 ∧ secondGroup tail ≠ [] ∧
        decimalValue (secondGroup tail) ≤ 2147483647 ∧ decimalValue (secondGroup tail) ≠ 0 ∧
        100 * decimalValue ds / decimalValue (secondGroup tail) ≤ 2147483647 →
        self.handleLine line OutputFormat.StdOutFormat =
          ⟨⟨true⟩, Status.Done,
            [some ((100 * decimalValue ds / decimalValue (secondGroup tail) : Nat) : Int)]⟩) ∧
      (ds = [] ∨ 2147483647 < decimalValue ds ∨ secondGroup tail = [] ∨
        2147483647 < decimalValue (secondGroup tail) ∨ decimalValue (secondGroup tail) = 0 →
        self.handleLine line OutputFormat.StdOutFormat = ⟨⟨true⟩, Status.Done, []⟩)) ∧
    ((∀ ds, ¬ PercentLine line.data ds) → (∀ ds tail, ¬ NinjaLine line.data ds tail) →
      self.handleLine line OutputFormat.StdOutFormat = ⟨self, Status.NotHandled, []⟩) ∧
    (self.m_useNinja = true →
      (self.handleLine line format).parser.hasDetectedRedirection = true) := by
  refine ⟨fun hf => ?_, fun ds hp => ?_, fun ds tail hn => ?_,
    handleLine_of_neither self line, handleLine_flag_stays self line format⟩
  · unfold CmakeProgressParser.handleLine
    rw [if_pos hf]
  · have hds : ∀ c ∈ ds, isDigit c = true := by
      obtain ⟨_, _, _, _, hds⟩ := hp
      exact hds
    rw [handleLine_of_percent self line ds hp, toInt_digits ds hds]
    by_cases hc : ds ≠ [] ∧ decimalValue ds ≤ 2147483647
    · have hc' : ds ≠ [] ∧ decimalValue ds ≤ INT_MAX := hc
      simp only [if_pos hc, if_pos hc']
      rfl
    · have hc' : ¬ (ds ≠ [] ∧ decimalValue ds ≤ INT_MAX) := hc
      simp only [if_neg hc, if_neg hc']
      rfl
  · have hds : ∀ c ∈ ds, isDigit c = true := by
      obtain ⟨_, _, _, hds⟩ := hn
      exact hds
    have key : self.handleLine line OutputFormat.StdOutFormat =
        ⟨⟨true⟩, Status.Done,
          if (ds ≠ [] ∧ decimalValue ds ≤ INT_MAX) ∧
              (secondGroup tail ≠ [] ∧ decimalValue (secondGroup tail) ≤ INT_MAX) ∧
              decimalValue (secondGroup tail) ≠ 0 then
            [percentOfQuotient ((decimalValue ds : Nat) : Int)
              ((decimalValue (secondGroup tail) : Nat) : Int)]
          else []⟩ := by
      rw [handleLine_of_ninja self line ds tail hn, toInt_digits ds hds,
        toInt_digits _ (secondGroup_digits tail)]
      by_cases hd : ds ≠ [] ∧ decimalValue ds ≤ INT_MAX
      · by_cases ha : secondGroup tail ≠ [] ∧ decimalValue (secondGroup tail) ≤ INT_MAX
        · by_cases h0 : decimalValue (secondGroup tail) = 0
          · simp [hd, ha, h0]
          · have h0' : ((decimalValue (secondGroup tail) : Nat) : Int) ≠ 0 := by
              exact_mod_cast h0
            simp [hd, ha, h0, h0']
        · simp [hd, ha]
      · simp [hd]
    refine ⟨by rw [key], by rw [key], by rw [key]; rfl, ?_, fun hc => ?_, fun hc => ?_⟩
    · rw [key]
      constructor
      · intro hlen
        by_contra hcon
        have hcon' : ¬ ((ds ≠ [] ∧ decimalValue ds ≤ INT_MAX) ∧
            (secondGroup tail ≠ [] ∧ decimalValue (secondGroup tail) ≤ INT_MAX) ∧
            decimalValue (secondGroup tail) ≠ 0) :=
          fun h => hcon ⟨h.1.1, h.1.2, h.2.1.1, h.2.1.2, h.2.2⟩
        simp only [if_neg hcon', List.length_nil] at hlen
        exact absurd hlen (by decide)
      · rintro ⟨h₁, h₂, h₃, h₄, h₅⟩
        have hc : (ds ≠ [] ∧ decimalValue ds ≤ INT_MAX) ∧
            (secondGroup tail ≠ [] ∧ decimalValue (secondGroup tail) ≤ INT_MAX) ∧
            decimalValue (secondGroup tail) ≠ 0 := ⟨⟨h₁, h₂⟩, ⟨h₃, h₄⟩, h₅⟩
        simp only [if_pos hc, List.length_singleton]
    · obtain ⟨h₁, h₂, h₃, h₄, h₅, h₆⟩ := hc
      have hc : (ds ≠ [] ∧ decimalValue ds ≤ INT_MAX) ∧
          (secondGroup tail ≠ [] ∧ decimalValue (secondGroup tail) ≤ INT_MAX) ∧
          decimalValue (secondGroup tail) ≠ 0 := ⟨⟨h₁, h₂⟩, ⟨h₃, h₄⟩, h₅⟩
      rw [key, if_pos hc, percentOfQuotient_natCast _ _ h₆]
    · have hcon : ¬ ((ds ≠ [] ∧ decimalValue ds ≤ INT_MAX) ∧
          (secondGroup tail ≠ [] ∧ decimalValue (secondGroup tail) ≤ INT_MAX) ∧
          decimalValue (secondGroup tail) ≠ 0) := by
        rintro ⟨⟨h₁, h₂⟩, ⟨h₃, h₄⟩, h₅⟩
        rcases hc with h | h | h | h | h
        · exact h₁ h
        · exact absurd h₂ (Nat.not_le.mpr h)
        · exact h₃ h
        · exact absurd h₄ (Nat.not_le.mpr h)
        · exact h₅ h
      rw [key, if_neg hcon]

theorem handleLine_progress_witness :
    (CmakeProgressParser.mk false).handleLine "[ 50%] Building" OutputFormat.StdOutFormat =
      ⟨⟨false⟩, Status.Done, [some 50]⟩ ∧
    (CmakeProgressParser.mk false).handleLine "[3/ 4] Linking" OutputFormat.StdOutFormat =
      ⟨⟨true⟩, Status.Done, [some 75]⟩ ∧
    (CmakeProgressParser.mk false).handleLine "[3/0] Linking" OutputFormat.StdOutFormat =
      ⟨⟨true⟩, Status.Done, []⟩ ∧
    (CmakeProgressParser.mk true).handleLine "[3/4] Linking" OutputFormat.StdErrFormat =
      ⟨⟨true⟩, Status.NotHandled, []⟩ ∧
    ((CmakeProgressParser.mk false).handleLine "[2147483647/1] Linking"
      OutputFormat.StdOutFormat).result = Status.Done ∧
    ((CmakeProgressParser.mk false).handleLine "[2147483647/1] Linking"
      OutputFormat.StdOutFormat).parser.hasDetectedRedirection = true :=
  ⟨(handleLine_progress ⟨false⟩ "[ 50%] Building" OutputFormat.StdOutFormat).2.1 "50".data
      ⟨" ".data, " Building".data, rfl, by decide, by decide⟩,
    ((handleLine_progress ⟨false⟩ "[3/ 4] Linking" OutputFormat.StdOutFormat).2.2.1 "3".data
      " 4] Linking".data ⟨[], rfl, by simp, by decide⟩).2.2.2.2.1 (by decide),
    ((handleLine_progress ⟨false⟩ "[3/0] Linking" OutputFormat.StdOutFormat).2.2.1 "3".data
      "0] Linking".data ⟨[], rfl, by simp, by decide⟩).2.2.2.2.2 (by decide),
    (handleLine_progress ⟨true⟩ "[3/4] Linking" OutputFormat.StdErrFormat).1 (by decide),
    ((handleLine_progress ⟨false⟩ "[2147483647/1] Linking" OutputFormat.StdOutFormat).2.2.1
      "2147483647".data "1] Linking".data ⟨[], rfl, by simp, by decide⟩).1,
    ((handleLine_progress ⟨false⟩ "[2147483647/1] Linking" OutputFormat.StdOutFormat).2.2.1
      "2147483647".data "1] Linking".data ⟨[], rfl, by simp, by decide⟩).2.2.1⟩

end Internal
end CMakeProjectManager
